import Mathlib

/-!
A shallow embedding of the clinic records manager: the Neo4j-backed entity
CRUD layer (`backend.py`), the login/identity helpers (`login_backend.py`,
`db.py`) and the MongoDB-backed messaging layer (`messaging_backend.py`).

The graph database is modelled as explicit lists of nodes per label and
lists of directed edges per relationship type; each Cypher statement is
translated clause by clause (MERGE = upsert, MATCH that fails = the rest
of the statement produces no rows, OPTIONAL MATCH + DELETE = remove all
matching edges).  Python exceptions are modelled with `Except`: every
operation of the repository raises, if at all, before its first write, so
an `Except.error` result faithfully leaves the caller with the unchanged
pre-state.  Machine integers do not overflow in this program (Python
ints), so `Int`/`Nat` are used directly.  String arguments that the UI
passes as "possibly blank text" are modelled as `Option String` where
`none` plays the role of Python's `None`; blank strings are kept distinct
from `none` because the code distinguishes them in places.
-/

namespace ClinicApp

/-- Python `str.strip()`: drop leading and trailing whitespace. -/
def pyStrip (s : String) : String :=
  String.mk (((s.toList.dropWhile Char.isWhitespace).reverse.dropWhile
    Char.isWhitespace).reverse)

/-- `backend._is_blank`: `None` or a string whose `strip()` is empty,
i.e. one consisting of whitespace only. -/
def is_blank : Option String → Bool
  | none => true
  | some s => s.toList.all Char.isWhitespace

/-- Python's `x or None` applied to an optional string: `None` and the
empty string collapse to `None` (only `""` is falsy among strings). -/
def orNone : Option String → Option String
  | none => none
  | some s => if s == "" then none else some s

/-- `v` is `none` or lies in `lo..hi`; the range guards of
`backend.validate_date_parts` have this shape. -/
def inRangeOpt (lo hi : Int) : Option Int → Bool
  | none => true
  | some v => decide (lo ≤ v ∧ v ≤ hi)

/-- The Gregorian leap-year rule, as used by Python's
`calendar.monthrange`. -/
def isLeapYear (y : Int) : Bool :=
  (y % 4 == 0 && y % 100 != 0) || y % 400 == 0

/-- Days in month `m` of year `y` (`calendar.monthrange(y, m)[1]`). -/
def monthLength (y m : Int) : Int :=
  if m == 2 then (if isLeapYear y then 29 else 28)
  else if m == 4 || m == 6 || m == 9 || m == 11 then 30 else 31

/-- Day limit used by `validate_date_parts` when no year is given:
`29 if m == 2 else (30 if m in (4, 6, 9, 11) else 31)`. -/
def monthMaxNoYear (m : Int) : Int :=
  if m == 2 then 29 else if m == 4 || m == 6 || m == 9 || m == 11 then 30 else 31

/-- The day-of-month limit applied by `validate_date_parts`: the real
month length when the year is given, the permissive
29 / 30 / 31 table when it is not. -/
def dayLimit (y : Option Int) (mm : Int) : Int :=
  match y with
  | some yy => monthLength yy mm
  | none => monthMaxNoYear mm

/-- `backend.validate_date_parts`.  The `norm` step of the source parses
string inputs to integers (raising `ValueError` on non-numeric text);
inputs here are the already-normalized `Option Int` values.  The final
`date(y, m, d)` call of the source never raises once the earlier guards
have passed (the year is within 1900..3000 and the day within the month
length), so it adds no further case. -/
def validate_date_parts (y m d : Option Int) :
    Except String (Option Int × Option Int × Option Int) :=
  if y.isNone && m.isNone && d.isNone then .ok (none, none, none)
  else if inRangeOpt 1900 3000 y = false then .error "year must be 1900..3000"
  else if inRangeOpt 1 12 m = false then .error "month must be 1..12"
  else if inRangeOpt 1 31 d = false then .error "day must be 1..31"
  else
    match m, d with
    | some mm, some dd =>
        if dayLimit y mm < dd then .error "day exceeds month length" else .ok (y, m, d)
    | _, _ => .ok (y, m, d)

/-- Whether an `Except` result is a success. -/
def exOk {ε α : Type} : Except ε α → Bool
  | .ok _ => true
  | .error _ => false

instance {ε α : Type} [DecidableEq ε] [DecidableEq α] : DecidableEq (Except ε α)
  | .ok a, .ok b =>
      if h : a = b then .isTrue (by rw [h]) else .isFalse (fun hc => h (by injection hc))
  | .ok _, .error _ => .isFalse (fun hc => Except.noConfusion hc)
  | .error _, .ok _ => .isFalse (fun hc => Except.noConfusion hc)
  | .error e, .error f =>
      if h : e = f then .isTrue (by rw [h]) else .isFalse (fun hc => h (by injection hc))

/-- Spec-side definition, following the spec's words "dates, when fully
specified, must form a valid calendar date": a (proleptic Gregorian)
calendar date with a real month and a day within that month. -/
def isValidCalendarDate (y m d : Int) : Prop :=
  1 ≤ m ∧ m ≤ 12 ∧ 1 ≤ d ∧ d ≤ monthLength y m

/-! ## The graph / document / file-system state -/

structure Clinic where
  cli_id : String
  cli_name : String
  address : Option String
deriving DecidableEq

structure Department where
  dept_id : String
  dept_name : String
deriving DecidableEq

structure Doctor where
  doctor_ID : String
  name : String
deriving DecidableEq

structure Patient where
  patient_ID : String
  name : String
deriving DecidableEq

structure Appointment where
  appoint_id : String
  appoint_year : Option Int
  appoint_month : Option Int
  appoint_day : Option Int
  appoint_location : Option String
deriving DecidableEq

structure Observation where
  obser_id : String
  obs_year : Option Int
  obs_month : Option Int
  obs_day : Option Int
  obs_comment_text : Option String
deriving DecidableEq

structure Diagnosis where
  diagn_id : String
  diagn_year : Option Int
  diagn_month : Option Int
  diagn_day : Option Int
  diagn_comment_text : Option String
deriving DecidableEq

/-- A `:Blob` node `{oid, url}` created by `lo_save_file`. -/
structure BlobNode where
  oid : Int
  url : String
deriving DecidableEq

/-- An `:Admin` or `:User` login node (`login_backend.py`). -/
structure Account where
  name : String
  password : String
  person_id : Option String
deriving DecidableEq

/-- A MongoDB message document as built by `send_message`.  `mid` models
the document's `_id` (insertion index); `created_at` models the
`datetime.utcnow()` timestamp as an abstract tick count. -/
structure Msg where
  mid : Nat
  sender_id : String
  sender_type : String
  receiver_id : String
  receiver_type : String
  text : Option String
  file_url : Option String
  created_at : Nat
  participants : List String
deriving DecidableEq

/-- The whole observable state: one list of nodes per Neo4j label, one
list of directed edges per relationship type (`(source key, target key)`
pairs), the `Counters {id:'global'}.lo_oid` value, the names of the files
written under the local `files/` directory, and the MongoDB `messages`
collection. -/
structure St where
  clinics : List Clinic
  departments : List Department
  doctors : List Doctor
  patients : List Patient
  appointments : List Appointment
  observations : List Observation
  diagnoses : List Diagnosis
  blobs : List BlobNode
  loOid : Option Int
  belongsTo : List (String × String)
  worksIn : List (String × String)
  assignedTo : List (String × String)
  apptPatient : List (String × String)
  apptDoctor : List (String × String)
  ofAppointment : List (String × String)
  ofObservation : List (String × String)
  obsFile : List (String × Int)
  diagFile : List (String × Int)
  admins : List Account
  users : List Account
  files : List String
  messages : List Msg
deriving DecidableEq

/-- Cypher `MERGE (a)-[:R]->(b)`: add the edge unless it already exists. -/
def mergeEdge {β : Type} [DecidableEq β] (es : List (String × β)) (a : String) (b : β) :
    List (String × β) :=
  if (a, b) ∈ es then es else es ++ [(a, b)]

/-- Cypher `OPTIONAL MATCH (a)-[r:R]->(:L) DELETE r`: remove every
outgoing `R` edge of `a`. -/
def deleteOut {β : Type} [DecidableEq β] (es : List (String × β)) (a : String) :
    List (String × β) :=
  es.filter (fun e => decide (e.1 ≠ a))

/-- Number of outgoing edges of `a` in the edge list. -/
def countOut {β : Type} [DecidableEq β] (es : List (String × β)) (a : String) : Nat :=
  (es.filter (fun e => decide (e.1 = a))).length

def findClinic (st : St) (id : String) : Option Clinic :=
  st.clinics.find? (fun c => c.cli_id == id)

def findDepartment (st : St) (id : String) : Option Department :=
  st.departments.find? (fun x => x.dept_id == id)

def findDoctor (st : St) (id : String) : Option Doctor :=
  st.doctors.find? (fun x => x.doctor_ID == id)

def findPatient (st : St) (id : String) : Option Patient :=
  st.patients.find? (fun x => x.patient_ID == id)

def findAppointment (st : St) (id : String) : Option Appointment :=
  st.appointments.find? (fun x => x.appoint_id == id)

def findObservation (st : St) (id : String) : Option Observation :=
  st.observations.find? (fun x => x.obser_id == id)

def findDiagnosis (st : St) (id : String) : Option Diagnosis :=
  st.diagnoses.find? (fun x => x.diagn_id == id)

def clinicExists (st : St) (id : String) : Bool :=
  st.clinics.any (fun c => c.cli_id == id)

def deptExists (st : St) (id : String) : Bool :=
  st.departments.any (fun x => x.dept_id == id)

def doctorExists (st : St) (id : String) : Bool :=
  st.doctors.any (fun x => x.doctor_ID == id)

def patientExists (st : St) (id : String) : Bool :=
  st.patients.any (fun x => x.patient_ID == id)

def apptExists (st : St) (id : String) : Bool :=
  st.appointments.any (fun x => x.appoint_id == id)

def obserExists (st : St) (id : String) : Bool :=
  st.observations.any (fun x => x.obser_id == id)

def diagnExists (st : St) (id : String) : Bool :=
  st.diagnoses.any (fun x => x.diagn_id == id)

def blobExists (st : St) (oid : Int) : Bool :=
  st.blobs.any (fun b => b.oid == oid)

/-! ## Errors and the role check (`db.py`) -/

/-- The exceptions the layer raises.  `cypherError` stands for a
statement the Neo4j server rejects (an unbound variable).  Every
operation raises, if at all, before its first write, so an error result
leaves the caller with the unchanged pre-state. -/
inductive Err
  | permissionError
  | valueError (msg : String)
  | cypherError
deriving DecidableEq

/-- `db.is_admin`: the ambient role (`db._CURRENT_ROLE`) is passed
explicitly. -/
def is_admin (role : String) : Bool := role == "super"

/-- `db.require_admin`. -/
def require_admin (role : String) : Except Err Unit :=
  if is_admin role then .ok () else .error .permissionError

/-! ## Entity CRUD (`backend.py`)

Each function takes the ambient role and the pre-state and returns the
post-state (or the raised exception).  Cypher upserts (`MERGE` on the key
followed by `SET`) become update-or-append on the node list; a failing
`MATCH` makes the remaining clauses of that statement no-ops. -/

/-- `MERGE (c:Clinic {cli_id:$id}) SET c.cli_name=$nm, c.address=$addr`. -/
def upsertClinic (st : St) (id nm : String) (addr : Option String) : St :=
  if clinicExists st id then
    { st with clinics := st.clinics.map (fun c =>
        if c.cli_id == id then { c with cli_name := nm, address := addr } else c) }
  else { st with clinics := st.clinics ++ [⟨id, nm, addr⟩] }

def clinic_insert (role : String) (st : St) (cli_id cli_name : String)
    (address : Option String) : Except Err St := do
  let _ ← require_admin role
  pure (upsertClinic st cli_id cli_name (orNone address))

/-- The field rewrite `clinic_update` applies to the matched clinic:
blank arguments keep the stored value. -/
def clinicUpd (cli_name address : Option String) (c : Clinic) : Clinic :=
  { c with
    cli_name := if is_blank cli_name then c.cli_name else cli_name.getD c.cli_name
    address := if is_blank address then c.address else address }

/-- The single `SET` statement of `clinic_update` (built from the
non-blank arguments only). -/
def setClinicFields (st : St) (cli_id : String) (cli_name address : Option String) : St :=
  { st with clinics := st.clinics.map (fun c =>
    if c.cli_id == cli_id then clinicUpd cli_name address c else c) }

def clinic_update (role : String) (st : St) (cli_id : String)
    (cli_name address : Option String) : Except Err St := do
  let _ ← require_admin role
  if is_blank cli_name && is_blank address then pure st
  else pure (setClinicFields st cli_id cli_name address)

/-- The delete-then-merge edge block shared by the update paths and the
appointment / observation / diagnosis inserts:
`MATCH (src) OPTIONAL MATCH (src)-[r:R]->(:T) DELETE r WITH src
MATCH (tgt) MERGE (src)-[:R]->(tgt)`.  If the source `MATCH` fails
nothing happens; if only the target `MATCH` fails the old edges are
still deleted. -/
def rewire {β : Type} [DecidableEq β] (srcOk tgtOk : Bool) (es : List (String × β))
    (a : String) (b : β) : List (String × β) :=
  if srcOk then
    (if tgtOk then mergeEdge (deleteOut es a) a b else deleteOut es a)
  else es

def clinic_delete (role : String) (st : St) (cli_id : String) : Except Err St := do
  let _ ← require_admin role
  pure { st with
    clinics := st.clinics.filter (fun c => decide (c.cli_id ≠ cli_id))
    belongsTo := st.belongsTo.filter (fun e => decide (e.2 ≠ cli_id)) }

/-- `MERGE (d:Department {dept_id:$id}) SET d.dept_name=$nm`. -/
def upsertDepartment (st : St) (id nm : String) : St :=
  if deptExists st id then
    { st with departments := st.departments.map (fun x =>
        if x.dept_id == id then { x with dept_name := nm } else x) }
  else { st with departments := st.departments ++ [⟨id, nm⟩] }

/-- `department_insert`.  With a blank `cli_id` the source runs
`MERGE (:Department {dept_id:$id}) SET _.dept_name=$nm`, in which the
variable `_` is unbound, so the server rejects the statement before
executing it. -/
def department_insert (role : String) (st : St) (dept_id dept_name : String)
    (cli_id : Option String) : Except Err St := do
  let _ ← require_admin role
  if is_blank cli_id then .error .cypherError
  else
    let st1 := upsertDepartment st dept_id dept_name
    let cli := cli_id.getD ""
    if clinicExists st1 cli then
      pure { st1 with belongsTo := mergeEdge st1.belongsTo dept_id cli }
    else pure st1

/-- The conditional `MATCH (d:Department {dept_id:$id}) SET d.dept_name=$nm`
statement of `department_update` (run only for a non-blank name). -/
def deptUpd (dept_name : Option String) (x : Department) : Department :=
  { x with dept_name := dept_name.getD x.dept_name }

def setDeptName (st : St) (dept_id : String) (dept_name : Option String) : St :=
  if is_blank dept_name then st
  else { st with departments := st.departments.map (fun x =>
    if x.dept_id == dept_id then deptUpd dept_name x else x) }

def department_update (role : String) (st : St) (dept_id : String)
    (dept_name cli_id : Option String) : Except Err St := do
  let _ ← require_admin role
  let st1 := setDeptName st dept_id dept_name
  if is_blank cli_id then pure st1
  else
    let es2 := rewire (deptExists st1 dept_id) (clinicExists st1 (cli_id.getD ""))
        st1.belongsTo dept_id (cli_id.getD "")
    pure { st1 with belongsTo := es2 }

def department_delete (role : String) (st : St) (dept_id : String) : Except Err St := do
  let _ ← require_admin role
  pure { st with
    departments := st.departments.filter (fun x => decide (x.dept_id ≠ dept_id))
    belongsTo := st.belongsTo.filter (fun e => decide (e.1 ≠ dept_id))
    worksIn := st.worksIn.filter (fun e => decide (e.2 ≠ dept_id)) }

/-- `MERGE (d:Doctor {doctor_ID:$id}) SET d.name=$nm`. -/
def upsertDoctor (st : St) (id nm : String) : St :=
  if doctorExists st id then
    { st with doctors := st.doctors.map (fun x =>
        if x.doctor_ID == id then { x with name := nm } else x) }
  else { st with doctors := st.doctors ++ [⟨id, nm⟩] }

/-- `doctor_insert`: upsert, then (for a non-blank `dept_id`)
`MATCH (d) MATCH (dept) MERGE (d)-[:WORKS_IN]->(dept)` — note there is
no deletion of a pre-existing `WORKS_IN` edge here. -/
def doctor_insert (role : String) (st : St) (doctor_personnumer doctor_name : String)
    (dept_id : Option String) : Except Err St := do
  let _ ← require_admin role
  let st1 := upsertDoctor st doctor_personnumer doctor_name
  if is_blank dept_id then pure st1
  else if doctorExists st1 doctor_personnumer && deptExists st1 (dept_id.getD "") then
    pure { st1 with worksIn := mergeEdge st1.worksIn doctor_personnumer (dept_id.getD "") }
  else pure st1

/-- The conditional name-`SET` statement of `doctor_update`. -/
def docUpd (new_doctor_name : Option String) (x : Doctor) : Doctor :=
  { x with name := new_doctor_name.getD x.name }

def setDoctorName (st : St) (doctor_personnumer : String) (new_doctor_name : Option String) : St :=
  if is_blank new_doctor_name then st
  else { st with doctors := st.doctors.map (fun x =>
    if x.doctor_ID == doctor_personnumer then docUpd new_doctor_name x else x) }

def doctor_update (role : String) (st : St) (doctor_personnumer : String)
    (new_dept_id new_doctor_name : Option String) : Except Err St := do
  let _ ← require_admin role
  let st1 := setDoctorName st doctor_personnumer new_doctor_name
  if is_blank new_dept_id then pure st1
  else
    let es2 := rewire (doctorExists st1 doctor_personnumer) (deptExists st1 (new_dept_id.getD ""))
        st1.worksIn doctor_personnumer (new_dept_id.getD "")
    pure { st1 with worksIn := es2 }

def doctor_delete (role : String) (st : St) (doctor_personnumer : String) : Except Err St := do
  let _ ← require_admin role
  pure { st with
    doctors := st.doctors.filter (fun x => decide (x.doctor_ID ≠ doctor_personnumer))
    worksIn := st.worksIn.filter (fun e => decide (e.1 ≠ doctor_personnumer))
    assignedTo := st.assignedTo.filter (fun e => decide (e.2 ≠ doctor_personnumer))
    apptDoctor := st.apptDoctor.filter (fun e => decide (e.2 ≠ doctor_personnumer)) }

/-- `MERGE (p:Patient {patient_ID:$pid}) SET p.name=$nm`. -/
def upsertPatient (st : St) (id nm : String) : St :=
  if patientExists st id then
    { st with patients := st.patients.map (fun x =>
        if x.patient_ID == id then { x with name := nm } else x) }
  else { st with patients := st.patients ++ [⟨id, nm⟩] }

/-- `patient_insert`: upsert, then (given a doctor) a bare
`MERGE (p)-[:ASSIGNED_TO]->(d)` with no prior-edge deletion. -/
def patient_insert (role : String) (st : St) (patient_personnumer patient_name : String)
    (doctor_personnumer : Option String) : Except Err St := do
  let _ ← require_admin role
  let st1 := upsertPatient st patient_personnumer patient_name
  if is_blank doctor_personnumer then pure st1
  else if patientExists st1 patient_personnumer && doctorExists st1 (doctor_personnumer.getD "") then
    pure { st1 with assignedTo := mergeEdge st1.assignedTo patient_personnumer (doctor_personnumer.getD "") }
  else pure st1

/-- The conditional name-`SET` statement of `patient_update`. -/
def patUpd (new_patient_name : Option String) (x : Patient) : Patient :=
  { x with name := new_patient_name.getD x.name }

def setPatientName (st : St) (patient_personnumer : String) (new_patient_name : Option String) : St :=
  if is_blank new_patient_name then st
  else { st with patients := st.patients.map (fun x =>
    if x.patient_ID == patient_personnumer then patUpd new_patient_name x else x) }

def patient_update (role : String) (st : St) (patient_personnumer : String)
    (new_doctor_personnumer new_patient_name : Option String) : Except Err St := do
  let _ ← require_admin role
  let st1 := setPatientName st patient_personnumer new_patient_name
  if is_blank new_doctor_personnumer then pure st1
  else
    let es2 := rewire (patientExists st1 patient_personnumer) (doctorExists st1 (new_doctor_personnumer.getD ""))
        st1.assignedTo patient_personnumer (new_doctor_personnumer.getD "")
    pure { st1 with assignedTo := es2 }

def patient_delete (role : String) (st : St) (patient_personnumer : String) : Except Err St := do
  let _ ← require_admin role
  pure { st with
    patients := st.patients.filter (fun x => decide (x.patient_ID ≠ patient_personnumer))
    assignedTo := st.assignedTo.filter (fun e => decide (e.1 ≠ patient_personnumer))
    apptPatient := st.apptPatient.filter (fun e => decide (e.2 ≠ patient_personnumer)) }

/-- Python's `a if a is not None else b` for optional ints, used when an
update merges given date parts with the stored ones. -/
def mergeOld (a b : Option Int) : Option Int :=
  match a with
  | some v => some v
  | none => b

/-- `MERGE (a:Appointment {appoint_id:$id}) SET a.appoint_year=$yy, ...`. -/
def upsertAppointment (st : St) (id : String) (y m d : Option Int)
    (loc : Option String) : St :=
  if apptExists st id then
    { st with appointments := st.appointments.map (fun a =>
        if a.appoint_id == id then
          { a with appoint_year := y, appoint_month := m, appoint_day := d,
                   appoint_location := loc }
        else a) }
  else { st with appointments := st.appointments ++ [⟨id, y, m, d, loc⟩] }

def appointment_insert (role : String) (st : St) (appoint_id : String)
    (year month day : Option Int) (location : Option String)
    (patient_personnumer doctor_personnumer : Option String) : Except Err St := do
  let _ ← require_admin role
  match validate_date_parts year month day with
  | .error e => .error (.valueError e)
  | .ok (y, m, d) =>
    let st1 := upsertAppointment st appoint_id y m d (orNone location)
    let st2 :=
      if is_blank patient_personnumer then st1
      else { st1 with apptPatient := rewire (apptExists st1 appoint_id) (patientExists st1 (patient_personnumer.getD "")) st1.apptPatient appoint_id (patient_personnumer.getD "") }
    let st3 :=
      if is_blank doctor_personnumer then st2
      else { st2 with apptDoctor := rewire (apptExists st2 appoint_id) (doctorExists st2 (doctor_personnumer.getD "")) st2.apptDoctor appoint_id (doctor_personnumer.getD "") }
    pure st3

/-- The field rewrite a non-blank part of `appointment_update` applies
to the matched appointment. -/
def apptUpd (year month day : Option Int) (location : Option String)
    (a : Appointment) : Appointment :=
  { a with
    appoint_year := (if year.isSome then year else a.appoint_year)
    appoint_month := (if month.isSome then month else a.appoint_month)
    appoint_day := (if day.isSome then day else a.appoint_day)
    appoint_location := (if is_blank location then a.appoint_location else location) }

/-- The conditional `SET` statement of `appointment_update`: only the
given parts are written, the blank ones keep their stored value. -/
def setApptFields (st : St) (appoint_id : String) (year month day : Option Int)
    (location : Option String) : St :=
  { st with appointments := st.appointments.map (fun a =>
    if a.appoint_id == appoint_id then apptUpd year month day location a else a) }

def appointment_update (role : String) (st : St) (appoint_id : String)
    (year month day : Option Int) (location : Option String)
    (patient_personnumer doctor_personnumer : Option String) : Except Err St := do
  let _ ← require_admin role
  match findAppointment st appoint_id with
  | none => .error (.valueError "appointment not found")
  | some old =>
    match validate_date_parts (mergeOld year old.appoint_year)
        (mergeOld month old.appoint_month) (mergeOld day old.appoint_day) with
    | .error e => .error (.valueError e)
    | .ok _ =>
      let st1 := setApptFields st appoint_id year month day location
      let st2 :=
        if is_blank patient_personnumer then st1
        else { st1 with apptPatient := rewire (apptExists st1 appoint_id) (patientExists st1 (patient_personnumer.getD "")) st1.apptPatient appoint_id (patient_personnumer.getD "") }
      let st3 :=
        if is_blank doctor_personnumer then st2
        else { st2 with apptDoctor := rewire (apptExists st2 appoint_id) (doctorExists st2 (doctor_personnumer.getD "")) st2.apptDoctor appoint_id (doctor_personnumer.getD "") }
      pure st3

def appointment_delete (role : String) (st : St) (appoint_id : String) : Except Err St := do
  let _ ← require_admin role
  pure { st with
    appointments := st.appointments.filter (fun a => decide (a.appoint_id ≠ appoint_id))
    apptPatient := st.apptPatient.filter (fun e => decide (e.1 ≠ appoint_id))
    apptDoctor := st.apptDoctor.filter (fun e => decide (e.1 ≠ appoint_id))
    ofAppointment := st.ofAppointment.filter (fun e => decide (e.2 ≠ appoint_id)) }

/-- `MERGE (o:Observation {obser_id:$id}) SET o.obs_year=$yy, ...`. -/
def upsertObservation (st : St) (id : String) (y m d : Option Int)
    (txt : Option String) : St :=
  if obserExists st id then
    { st with observations := st.observations.map (fun o =>
        if o.obser_id == id then
          { o with obs_year := y, obs_month := m, obs_day := d, obs_comment_text := txt }
        else o) }
  else { st with observations := st.observations ++ [⟨id, y, m, d, txt⟩] }

def observation_insert (role : String) (st : St) (obser_id : String)
    (year month day : Option Int) (appoint_id : Option String)
    (comment_text : Option String) (file_oid : Option Int) : Except Err St := do
  let _ ← require_admin role
  match validate_date_parts year month day with
  | .error e => .error (.valueError e)
  | .ok (y, m, d) =>
    let st1 := upsertObservation st obser_id y m d (orNone comment_text)
    let st2 :=
      if is_blank appoint_id then st1
      else { st1 with ofAppointment := rewire (obserExists st1 obser_id) (apptExists st1 (appoint_id.getD "")) st1.ofAppointment obser_id (appoint_id.getD "") }
    let st3 :=
      if file_oid.isSome then
        { st2 with obsFile := rewire (obserExists st2 obser_id) (blobExists st2 (file_oid.getD 0)) st2.obsFile obser_id (file_oid.getD 0) }
      else st2
    pure st3

/-- The field rewrite `observation_update` applies to the matched
observation.  Note the comment guard of the source is
`if comment_text is not None`, so a blank (but non-`None`) comment
string IS written. -/
def obsUpd (year month day : Option Int) (comment_text : Option String)
    (o : Observation) : Observation :=
  { o with
    obs_year := (if year.isSome then year else o.obs_year)
    obs_month := (if month.isSome then month else o.obs_month)
    obs_day := (if day.isSome then day else o.obs_day)
    obs_comment_text := (if comment_text.isSome then comment_text else o.obs_comment_text) }

/-- The conditional `SET` statement of `observation_update`. -/
def setObsFields (st : St) (obser_id : String) (year month day : Option Int)
    (comment_text : Option String) : St :=
  { st with observations := st.observations.map (fun o =>
    if o.obser_id == obser_id then obsUpd year month day comment_text o else o) }

def observation_update (role : String) (st : St) (obser_id : String)
    (year month day : Option Int) (appoint_id : Option String)
    (comment_text : Option String) (file_oid : Option Int) : Except Err St := do
  let _ ← require_admin role
  match findObservation st obser_id with
  | none => .error (.valueError "observation not found")
  | some old =>
    match validate_date_parts (mergeOld year old.obs_year)
        (mergeOld month old.obs_month) (mergeOld day old.obs_day) with
    | .error e => .error (.valueError e)
    | .ok _ =>
      let st1 := setObsFields st obser_id year month day comment_text
      let st2 :=
        if is_blank appoint_id then st1
        else { st1 with ofAppointment := rewire (obserExists st1 obser_id) (apptExists st1 (appoint_id.getD "")) st1.ofAppointment obser_id (appoint_id.getD "") }
      let st3 :=
        if file_oid.isSome then
          { st2 with obsFile := rewire (obserExists st2 obser_id) (blobExists st2 (file_oid.getD 0)) st2.obsFile obser_id (file_oid.getD 0) }
        else st2
      pure st3

def observation_delete (role : String) (st : St) (obser_id : String) : Except Err St := do
  let _ ← require_admin role
  pure { st with
    observations := st.observations.filter (fun o => decide (o.obser_id ≠ obser_id))
    ofAppointment := st.ofAppointment.filter (fun e => decide (e.1 ≠ obser_id))
    obsFile := st.obsFile.filter (fun e => decide (e.1 ≠ obser_id))
    ofObservation := st.ofObservation.filter (fun e => decide (e.2 ≠ obser_id)) }

/-- `MERGE (g:Diagnosis {diagn_id:$id}) SET g.diagn_year=$yy, ...`. -/
def upsertDiagnosis (st : St) (id : String) (y m d : Option Int)
    (txt : Option String) : St :=
  if diagnExists st id then
    { st with diagnoses := st.diagnoses.map (fun g =>
        if g.diagn_id == id then
          { g with diagn_year := y, diagn_month := m, diagn_day := d,
                   diagn_comment_text := txt }
        else g) }
  else { st with diagnoses := st.diagnoses ++ [⟨id, y, m, d, txt⟩] }

def diagnosis_insert (role : String) (st : St) (diagn_id : String)
    (year month day : Option Int) (obser_id : Option String)
    (comment_text : Option String) (file_oid : Option Int) : Except Err St := do
  let _ ← require_admin role
  match validate_date_parts year month day with
  | .error e => .error (.valueError e)
  | .ok (y, m, d) =>
    let st1 := upsertDiagnosis st diagn_id y m d (orNone comment_text)
    let st2 :=
      if is_blank obser_id then st1
      else { st1 with ofObservation := rewire (diagnExists st1 diagn_id) (obserExists st1 (obser_id.getD "")) st1.ofObservation diagn_id (obser_id.getD "") }
    let st3 :=
      if file_oid.isSome then
        { st2 with diagFile := rewire (diagnExists st2 diagn_id) (blobExists st2 (file_oid.getD 0)) st2.diagFile diagn_id (file_oid.getD 0) }
      else st2
    pure st3

/-- The field rewrite `diagnosis_update` applies to the matched
diagnosis; the comment guard is `if comment_text is not None`, as for
observations. -/
def diagUpd (year month day : Option Int) (comment_text : Option String)
    (g : Diagnosis) : Diagnosis :=
  { g with
    diagn_year := (if year.isSome then year else g.diagn_year)
    diagn_month := (if month.isSome then month else g.diagn_month)
    diagn_day := (if day.isSome then day else g.diagn_day)
    diagn_comment_text := (if comment_text.isSome then comment_text else g.diagn_comment_text) }

/-- The conditional `SET` statement of `diagnosis_update`. -/
def setDiagFields (st : St) (diagn_id : String) (year month day : Option Int)
    (comment_text : Option String) : St :=
  { st with diagnoses := st.diagnoses.map (fun g =>
    if g.diagn_id == diagn_id then diagUpd year month day comment_text g else g) }

def diagnosis_update (role : String) (st : St) (diagn_id : String)
    (year month day : Option Int) (obser_id : Option String)
    (comment_text : Option String) (file_oid : Option Int) : Except Err St := do
  let _ ← require_admin role
  match findDiagnosis st diagn_id with
  | none => .error (.valueError "diagnosis not found")
  | some old =>
    match validate_date_parts (mergeOld year old.diagn_year)
        (mergeOld month old.diagn_month) (mergeOld day old.diagn_day) with
    | .error e => .error (.valueError e)
    | .ok _ =>
      let st1 := setDiagFields st diagn_id year month day comment_text
      let st2 :=
        if is_blank obser_id then st1
        else { st1 with ofObservation := rewire (diagnExists st1 diagn_id) (obserExists st1 (obser_id.getD "")) st1.ofObservation diagn_id (obser_id.getD "") }
      let st3 :=
        if file_oid.isSome then
          { st2 with diagFile := rewire (diagnExists st2 diagn_id) (blobExists st2 (file_oid.getD 0)) st2.diagFile diagn_id (file_oid.getD 0) }
        else st2
      pure st3

def diagnosis_delete (role : String) (st : St) (diagn_id : String) : Except Err St := do
  let _ ← require_admin role
  pure { st with
    diagnoses := st.diagnoses.filter (fun g => decide (g.diagn_id ≠ diagn_id))
    ofObservation := st.ofObservation.filter (fun e => decide (e.1 ≠ diagn_id))
    diagFile := st.diagFile.filter (fun e => decide (e.1 ≠ diagn_id)) }

/-! ## File storage (`backend.lo_save_file` and helpers) -/

/-- Split a character list at every slash. -/
def splitSlash (cs : List Char) : List (List Char) :=
  cs.foldr
    (fun c acc =>
      if c = '/' then [] :: acc
      else
        match acc with
        | h :: t => (c :: h) :: t
        | [] => [[c]])
    [[]]

/-- `pathlib.Path(p).name` on a POSIX path: the part after the last
slash. -/
def pathName (p : String) : String :=
  String.mk ((splitSlash p.toList).getLastD p.toList)

/-- `pathlib.Path(p).suffix`: from the last dot of the final component,
provided that dot is neither the first nor the last character. -/
def pathSuffix (p : String) : String :=
  let cs := (pathName p).toList
  let idxs := (List.range cs.length).filter (fun i => cs.getD i ' ' == '.')
  match idxs.getLast? with
  | some i => if 0 < i ∧ i < cs.length - 1 then String.mk (cs.drop i) else ""
  | none => ""

/-- The `safe_ext` filter of `backend._derive_target_name`: keep the
extension only if it is at most 10 characters, all alphanumeric or
dots. -/
def safeExt (ext : String) : String :=
  if ext.length ≤ 10 && ext.toList.all (fun c => c.isAlphanum || c == '.') then ext else ""

/-- `backend._derive_target_name`: `f"{oid}{safe_ext}"`. -/
def derive_target_name (oid : Int) (src_path : String) : String :=
  toString oid ++ safeExt (pathSuffix src_path)

/-- `backend.lo_save_file`: allocate the next `Counters.lo_oid`
(`MERGE ... ON CREATE SET c.lo_oid = 0 SET c.lo_oid = c.lo_oid + 1`),
write the bytes under `files/<oid><ext>` and create a
`:Blob {oid, url:'files/<oid><ext>'}` node; returns the oid.  The source
also reads the source file first (raising `OSError` when it does not
exist); the embedding takes the readable path as given. -/
def lo_save_file (st : St) (path : String) : Int × St :=
  let oid := st.loOid.getD 0 + 1
  let target_name := derive_target_name oid path
  let url := "files/" ++ target_name
  (oid, { st with
    loOid := some oid
    files := st.files ++ [target_name]
    blobs := st.blobs ++ [⟨oid, url⟩] })

/-- Iterated `lo_save_file`, collecting the returned oids in order. -/
def lo_save_all (st : St) : List String → List Int × St
  | [] => ([], st)
  | p :: ps =>
      let (oid, st1) := lo_save_file st p
      let (oids, st2) := lo_save_all st1 ps
      (oid :: oids, st2)

/-! ## Identity resolution (`login_backend.py`, `messaging_backend.py`) -/

/-- `login_backend.get_account_person_id`:
`MATCH (x) WHERE (x:Admin OR x:User) AND x.name=$n RETURN x.person_id LIMIT 1`,
returning the id only when it is non-null and non-empty (Python
truthiness).  The label scan is modelled as admins before users. -/
def get_account_person_id (st : St) (name : String) : Option String :=
  match (st.admins ++ st.users).find? (fun a => a.name == name) with
  | some a =>
      match a.person_id with
      | some s => if s == "" then none else some s
      | none => none
  | none => none

def is_doctor_person (st : St) (pid : String) : Bool :=
  st.doctors.any (fun d => d.doctor_ID == pid)

def is_patient_person (st : St) (pid : String) : Bool :=
  st.patients.any (fun p => p.patient_ID == pid)

/-- `get_account_person_id(name) or name`. -/
def resolved_person_id (st : St) (name : String) : String :=
  (get_account_person_id st name).getD name

inductive UserType
  | doctor
  | patient
  | adminOnly
deriving DecidableEq

/-- The dict returned by `messaging_backend._normalize_identity`. -/
structure Identity where
  user_type : UserType
  person_id : String
  login_name : String
  role : String
deriving DecidableEq

/-- `messaging_backend._normalize_identity`. -/
def normalize_identity (st : St) (name role : String) : Identity :=
  let pid := resolved_person_id st name
  let ut :=
    if role == "super" && is_doctor_person st pid then UserType.doctor
    else if role == "normal" && is_patient_person st pid then UserType.patient
    else UserType.adminOnly
  ⟨ut, pid, name, role⟩

/-- Modelled from the spec: `backend.get_patients_for_doctor` is called
by `messaging_backend.list_recipients_for_user` but its definition is
not among the files under `src` (only this call site names it).  Per the
spec — a doctor's counterpart list is the patients assigned to that
doctor, returned as id/name pairs — it lists `(patient_ID, name)` of
every patient with an `ASSIGNED_TO` edge to the doctor. -/
def get_patients_for_doctor (st : St) (doctor_id : String) : List (String × String) :=
  (st.patients.filter (fun p => st.assignedTo.contains (p.patient_ID, doctor_id))).map
    (fun p => (p.patient_ID, p.name))

/-- Modelled from the spec: `backend.get_doctors_for_patient` is called
by `messaging_backend.list_recipients_for_user` but its definition is
not among the files under `src`.  Per the spec it lists
`(doctor_ID, name)` of every doctor the patient is assigned to. -/
def get_doctors_for_patient (st : St) (patient_id : String) : List (String × String) :=
  (st.doctors.filter (fun d => st.assignedTo.contains (patient_id, d.doctor_ID))).map
    (fun d => (d.doctor_ID, d.name))

/-- An entry of the list returned by `list_recipients_for_user`:
`{'id': person_id, 'name': readable_name}`. -/
structure Recipient where
  id : String
  name : String
deriving DecidableEq

/-- `messaging_backend.list_recipients_for_user`. -/
def list_recipients_for_user (st : St) (login_name role : String) : List Recipient :=
  let me := normalize_identity st login_name role
  match me.user_type with
  | .doctor => (get_patients_for_doctor st me.person_id).map (fun pr => ⟨pr.1, pr.2⟩)
  | .patient => (get_doctors_for_patient st me.person_id).map (fun pr => ⟨pr.1, pr.2⟩)
  | .adminOnly => []

/-! ## Messaging (`messaging_backend.py`) -/

/-- Lexicographic order on character lists by character code — the
order Python uses to compare strings. -/
def charListLe : List Char → List Char → Bool
  | [], _ => true
  | _ :: _, [] => false
  | a :: as, b :: bs =>
      if a.toNat < b.toNat then true
      else if b.toNat < a.toNat then false
      else charListLe as bs

/-- String comparison by code points (Python `<=` on `str`). -/
def strLe (a b : String) : Bool := charListLe a.toList b.toList

/-- Python `sorted([a, b])` on two strings. -/
def pairKey (a b : String) : List String :=
  if strLe a b then [a, b] else [b, a]

/-- Python `not file_path`: `None` and the empty string are falsy. -/
def noFilePath : Option String → Bool
  | none => true
  | some s => s == ""

/-- `messaging_backend.send_message`.  `now` models
`datetime.utcnow()`; the returned `Nat` models `str(res.inserted_id)`
(the insertion index).  The stored `file_url` is
`f"files/{oid}"`: `str(oid)` of an int never contains a slash, so the
source's conditional always takes its else branch. -/
def send_message (st : St) (login_name role to_person_id : String)
    (text file_path : Option String) (now : Nat) : Except Err (Nat × St) := do
  if is_blank text && noFilePath file_path then
    .error (.valueError "Provide text or attach a file.")
  else
    let me := normalize_identity st login_name role
    if me.user_type = .adminOnly then .error .permissionError
    else
      let fileRes :=
        if noFilePath file_path then (none, st)
        else
          let (oid, st1) := lo_save_file st (file_path.getD "")
          (some ("files/" ++ toString oid), st1)
      let file_url := fileRes.1
      let st1 := fileRes.2
      let receiver_type := if me.user_type = .doctor then "patient" else "doctor"
      let sender_type := if me.user_type = .doctor then "doctor" else "patient"
      let doc : Msg :=
        { mid := st1.messages.length
          sender_id := me.person_id
          sender_type := sender_type
          receiver_id := to_person_id
          receiver_type := receiver_type
          text := orNone (some (pyStrip (text.getD "")))
          file_url := file_url
          created_at := now
          participants := pairKey me.person_id to_person_id }
      pure (doc.mid, { st1 with messages := st1.messages ++ [doc] })

/-- The sort key of the conversation query: ascending `created_at`. -/
def msgLE (a b : Msg) : Prop := a.created_at ≤ b.created_at

instance : DecidableRel msgLE := fun a b => Nat.decLe a.created_at b.created_at

instance : IsTotal Msg msgLE := ⟨fun a b => Nat.le_total a.created_at b.created_at⟩

instance : IsTrans Msg msgLE := ⟨fun _ _ _ => Nat.le_trans⟩

/-- `pymongo` cursor `.limit(n)`: `limit(0)` means "no limit". -/
def mongoLimit {α : Type} (n : Nat) (l : List α) : List α :=
  if n = 0 then l else l.take n

/-- The documents produced by `get_conversation`'s query
`find({'participants': parts}).sort('created_at', ASCENDING).limit(limit)`
(sorting modelled as a stable ascending sort). -/
def conversation_docs (st : St) (login_name role other_person_id : String)
    (limit : Nat) : List Msg :=
  let me := normalize_identity st login_name role
  if me.user_type = .adminOnly then []
  else
    let parts := pairKey me.person_id other_person_id
    mongoLimit limit
      (List.insertionSort msgLE (st.messages.filter (fun m => m.participants == parts)))

/-- `strftime('%Y-%m-%d %H:%M:%S UTC')` on the abstract timestamp. -/
def format_created_at (t : Nat) : String := toString t ++ " UTC"

/-- One entry of `get_conversation`'s result list. -/
structure MsgView where
  id : String
  sender_id : String
  sender_type : String
  receiver_id : String
  receiver_type : String
  text : Option String
  file_url : Option String
  created_at : String
deriving DecidableEq

def msgView (m : Msg) : MsgView :=
  ⟨toString m.mid, m.sender_id, m.sender_type, m.receiver_id, m.receiver_type,
    m.text, m.file_url, format_created_at m.created_at⟩

/-- `messaging_backend.get_conversation`. -/
def get_conversation (st : St) (login_name role other_person_id : String)
    (limit : Nat) : List MsgView :=
  (conversation_docs st login_name role other_person_id limit).map msgView

/-- The empty database state. -/
def emptySt : St :=
  ⟨[], [], [], [], [], [], [], [], none, [], [], [], [], [], [], [], [], [], [], [], [], []⟩

/-- A state with one observation whose stored comment is "hello". -/
def stC7 : St :=
  { emptySt with observations := [⟨"o1", none, none, none, some "hello"⟩] }

/-- Witness state for the amended C7. -/
def stC7w : St := { emptySt with clinics := [⟨"c1", "Old", none⟩] }

/-- The state the witness `clinic_update` produces: the blank name is
kept, the given address is written. -/
def stC7w' : St := { emptySt with clinics := [⟨"c1", "Old", some "Addr"⟩] }

/-- A state with doctor d1 already working in dep1. -/
def stC2 : St :=
  { emptySt with
    departments := [⟨"dep1", "D1"⟩, ⟨"dep2", "D2"⟩]
    doctors := [⟨"d1", "Ann"⟩]
    worksIn := [("d1", "dep1")] }

/-- Witness state for the amended C2. -/
def stC2w : St :=
  { emptySt with
    departments := [⟨"dep1", "D"⟩]
    clinics := [⟨"c1", "C", none⟩] }

/-- The state `department_update` produces on the witness input. -/
def stC2w' : St := { stC2w with belongsTo := [("dep1", "c1")] }

/-- A state with a doctor account whose doctor has one assigned patient. -/
def stC1w : St :=
  { emptySt with
    doctors := [⟨"d1", "Ann"⟩]
    patients := [⟨"p1", "Bob"⟩]
    assignedTo := [("p1", "d1")]
    admins := [⟨"doc", "pw", some "d1"⟩] }

/-- A state with a doctor account, used to exercise `send_message`. -/
def stC4 : St :=
  { emptySt with doctors := [⟨"d1", "Ann"⟩], admins := [⟨"doc", "pw", some "d1"⟩] }

/-- The message document the witness `send_message` inserts. -/
def docC4 : Msg :=
  ⟨0, "d1", "doctor", "p9", "patient", none, some "files/1", 7, ["d1", "p9"]⟩

/-- The state the witness `send_message` produces. -/
def stC4w : St :=
  { stC4 with
    loOid := some 1
    files := ["1.pdf"]
    blobs := [⟨1, "files/1.pdf"⟩]
    messages := [docC4] }

/-- A state that already holds one blob. -/
def stC8w : St := { emptySt with blobs := [⟨5, "files/5"⟩], loOid := some 5 }

/-- The state the C10 witness sends from: one doctor with an aliased
account. -/
def stC10w : St :=
  { emptySt with doctors := [⟨"d1", "Ann"⟩], admins := [⟨"doc", "pw", some "d1"⟩] }

/-- The document the C10 witness send inserts. -/
def docC10 : Msg :=
  ⟨0, "d1", "doctor", "p9", "patient", some "hi", none, 7, ["d1", "p9"]⟩

/-- The state the C10 witness send produces. -/
def stC10w' : St := { stC10w with messages := [docC10] }

/-- A state with two messages in one conversation, for the `limit = 0`
counterexample. -/
def stC5 : St :=
  { emptySt with
    doctors := [⟨"d1", "Ann"⟩]
    admins := [⟨"doc", "pw", some "d1"⟩]
    messages :=
      [⟨0, "d1", "doctor", "p9", "patient", some "hi", none, 3, ["d1", "p9"]⟩,
       ⟨1, "p9", "patient", "d1", "doctor", some "yo", none, 5, ["d1", "p9"]⟩] }

/-- A state where both sides of a conversation have login accounts. -/
def stC5w : St :=
  { emptySt with
    doctors := [⟨"d1", "Ann"⟩]
    patients := [⟨"p9", "Bob"⟩]
    admins := [⟨"doc", "pw", some "d1"⟩]
    users := [⟨"pat", "pw", some "p9"⟩]
    messages :=
      [⟨0, "d1", "doctor", "p9", "patient", some "hi", none, 3, ["d1", "p9"]⟩] }

@[simp]
theorem exOk_ok {ε α : Type} (a : α) : exOk (.ok a : Except ε α) = true := rfl

@[simp]
theorem exOk_error {ε α : Type} (e : ε) : exOk (.error e : Except ε α) = false := rfl

theorem monthLength_le_31 (y m : Int) : monthLength y m ≤ 31 := by
  unfold monthLength
  split
  · split <;> omega
  · split <;> omega

theorem monthLength_pos (y m : Int) : 1 ≤ monthLength y m := by
  unfold monthLength
  split
  · split <;> omega
  · split <;> omega

theorem validate_ok_val (y m d : Option Int) (t : Option Int × Option Int × Option Int)
    (h : validate_date_parts y m d = .ok t) : t = (y, m, d) := by
  unfold validate_date_parts at h
  split at h
  · rename_i hall
    simp only [Bool.and_eq_true, Option.isNone_iff_eq_none] at hall
    obtain ⟨⟨hy, hm⟩, hd⟩ := hall
    subst hy; subst hm; subst hd
    injection h with h
    exact h.symm
  · split at h
    · exact absurd h (by simp)
    · split at h
      · exact absurd h (by simp)
      · split at h
        · exact absurd h (by simp)
        · split at h
          · split at h
            · exact absurd h (by simp)
            · injection h with h; exact h.symm
          · injection h with h; exact h.symm

theorem exOk_validate_iff (y m d : Option Int) :
    exOk (validate_date_parts y m d) = true ↔
      ((y = none ∧ m = none ∧ d = none) ∨
       (inRangeOpt 1900 3000 y = true ∧ inRangeOpt 1 12 m = true ∧
        inRangeOpt 1 31 d = true ∧
        ∀ mm dd : Int, m = some mm → d = some dd → dd ≤ dayLimit y mm)) := by
  unfold validate_date_parts
  split
  · rename_i hall
    simp only [Bool.and_eq_true, Option.isNone_iff_eq_none] at hall
    simp [hall.1.1, hall.1.2, hall.2]
  · rename_i hnotall
    simp only [Bool.and_eq_true, Option.isNone_iff_eq_none] at hnotall
    split
    · rename_i h1
      refine ⟨fun h => absurd h (by simp), fun hr => ?_⟩
      rcases hr with ⟨hy, hm, hd⟩ | ⟨hy, _⟩
      · exact (hnotall ⟨⟨hy, hm⟩, hd⟩).elim
      · exact absurd (h1 ▸ hy) (by simp)
    · rename_i h1
      rw [Bool.not_eq_false] at h1
      split
      · rename_i h2
        refine ⟨fun h => absurd h (by simp), fun hr => ?_⟩
        rcases hr with ⟨hy, hm, hd⟩ | ⟨_, hm, _⟩
        · exact (hnotall ⟨⟨hy, hm⟩, hd⟩).elim
        · exact absurd (h2 ▸ hm) (by simp)
      · rename_i h2
        rw [Bool.not_eq_false] at h2
        split
        · rename_i h3
          refine ⟨fun h => absurd h (by simp), fun hr => ?_⟩
          rcases hr with ⟨hy, hm, hd⟩ | ⟨_, _, hd, _⟩
          · exact (hnotall ⟨⟨hy, hm⟩, hd⟩).elim
          · exact absurd (h3 ▸ hd) (by simp)
        · rename_i h3
          rw [Bool.not_eq_false] at h3
          split
          · rename_i mm dd
            split
            · rename_i hdim
              refine ⟨fun h => absurd h (by simp), fun hr => ?_⟩
              rcases hr with ⟨hy, hm, hd⟩ | ⟨_, _, _, hall⟩
              · exact (hnotall ⟨⟨hy, hm⟩, hd⟩).elim
              · exact absurd (hall mm dd rfl rfl) (by omega)
            · rename_i hdim
              refine ⟨fun _ => Or.inr ⟨h1, h2, h3, ?_⟩, fun _ => rfl⟩
              intro mm2 dd2 hmm hdd
              injection hmm with hmm
              injection hdd with hdd
              subst hmm; subst hdd
              omega
          · rename_i hno
            refine ⟨fun _ => Or.inr ⟨h1, h2, h3, ?_⟩, fun _ => rfl⟩
            intro mm dd hmm hdd
            exact (hno mm dd hmm hdd).elim

/-- C3 (amended).  `validate_date_parts` accepts the all-`None` triple;
it raises when a given year is outside 1900..3000, when a given month is
outside 1..12, when a given day is outside 1..31, or when a given
(month, day) pair exceeds that month's day limit (the actual leap-year
rule when the year is given); otherwise it returns the normalized
(year, month, day) triple.  A fully specified triple is accepted exactly
when it forms a valid calendar date AND its year lies in 1900..3000 (the
year-range guard also rejects valid calendar dates outside that range,
which corrects the claim's final clause). -/
theorem C3_validate_date_parts :
    (validate_date_parts none none none = .ok (none, none, none))
  ∧ (∀ y m d : Option Int, ∀ yy : Int, y = some yy → ¬(1900 ≤ yy ∧ yy ≤ 3000) →
      exOk (validate_date_parts y m d) = false)
  ∧ (∀ y m d : Option Int, ∀ mm : Int, m = some mm → ¬(1 ≤ mm ∧ mm ≤ 12) →
      exOk (validate_date_parts y m d) = false)
  ∧ (∀ y m d : Option Int, ∀ dd : Int, d = some dd → ¬(1 ≤ dd ∧ dd ≤ 31) →
      exOk (validate_date_parts y m d) = false)
  ∧ (∀ (y : Option Int) (mm dd : Int), dayLimit y mm < dd →
      exOk (validate_date_parts y (some mm) (some dd)) = false)
  ∧ (∀ y m d t, validate_date_parts y m d = .ok t → t = (y, m, d))
  ∧ (∀ y m d : Option Int,
      inRangeOpt 1900 3000 y = true → inRangeOpt 1 12 m = true →
      inRangeOpt 1 31 d = true →
      (∀ mm dd : Int, m = some mm → d = some dd → dd ≤ dayLimit y mm) →
      validate_date_parts y m d = .ok (y, m, d))
  ∧ (∀ yy mm dd : Int,
      exOk (validate_date_parts (some yy) (some mm) (some dd)) = true ↔
        ((1900 ≤ yy ∧ yy ≤ 3000) ∧ isValidCalendarDate yy mm dd)) := by
  refine ⟨rfl, ?_, ?_, ?_, ?_, validate_ok_val, ?_, ?_⟩
  · rintro y m d yy rfl hy
    by_contra hfalse
    rw [Bool.not_eq_false] at hfalse
    rcases (exOk_validate_iff _ m d).mp hfalse with ⟨h1, _, _⟩ | ⟨h1, _⟩
    · exact absurd h1 (by simp)
    · rw [show inRangeOpt 1900 3000 (some yy) = decide (1900 ≤ yy ∧ yy ≤ 3000) from rfl,
        decide_eq_true_eq] at h1
      exact hy h1
  · rintro y m d mm rfl hm
    by_contra hfalse
    rw [Bool.not_eq_false] at hfalse
    rcases (exOk_validate_iff y _ d).mp hfalse with ⟨_, h1, _⟩ | ⟨_, h1, _⟩
    · exact absurd h1 (by simp)
    · rw [show inRangeOpt 1 12 (some mm) = decide (1 ≤ mm ∧ mm ≤ 12) from rfl,
        decide_eq_true_eq] at h1
      exact hm h1
  · rintro y m d dd rfl hd
    by_contra hfalse
    rw [Bool.not_eq_false] at hfalse
    rcases (exOk_validate_iff y m _).mp hfalse with ⟨_, _, h1⟩ | ⟨_, _, h1, _⟩
    · exact absurd h1 (by simp)
    · rw [show inRangeOpt 1 31 (some dd) = decide (1 ≤ dd ∧ dd ≤ 31) from rfl,
        decide_eq_true_eq] at h1
      exact hd h1
  · intro y mm dd hdim
    by_contra hfalse
    rw [Bool.not_eq_false] at hfalse
    rcases (exOk_validate_iff y _ _).mp hfalse with ⟨_, h1, _⟩ | ⟨_, _, _, h1⟩
    · exact absurd h1 (by simp)
    · exact absurd (h1 mm dd rfl rfl) (by omega)
  · intro y m d hy hm hd hdim
    have hok : exOk (validate_date_parts y m d) = true :=
      (exOk_validate_iff y m d).mpr (Or.inr ⟨hy, hm, hd, hdim⟩)
    cases hv : validate_date_parts y m d with
    | ok t => rw [validate_ok_val y m d t hv]
    | error e => rw [hv] at hok; exact absurd hok (by simp)
  · intro yy mm dd
    rw [exOk_validate_iff]
    constructor
    · rintro (⟨h1, _, _⟩ | ⟨h1, h2, h3, h4⟩)
      · exact absurd h1 (by simp)
      · rw [show inRangeOpt 1900 3000 (some yy) = decide (1900 ≤ yy ∧ yy ≤ 3000) from rfl,
          decide_eq_true_eq] at h1
        rw [show inRangeOpt 1 12 (some mm) = decide (1 ≤ mm ∧ mm ≤ 12) from rfl,
          decide_eq_true_eq] at h2
        rw [show inRangeOpt 1 31 (some dd) = decide (1 ≤ dd ∧ dd ≤ 31) from rfl,
          decide_eq_true_eq] at h3
        have h5 := h4 mm dd rfl rfl
        rw [show dayLimit (some yy) mm = monthLength yy mm from rfl] at h5
        exact ⟨h1, h2.1, h2.2, h3.1, h5⟩
    · rintro ⟨hy, h1m, h2m, h1d, h2d⟩
      refine Or.inr ⟨?_, ?_, ?_, ?_⟩
      · rw [show inRangeOpt 1900 3000 (some yy) = decide (1900 ≤ yy ∧ yy ≤ 3000) from rfl,
          decide_eq_true_eq]
        exact hy
      · rw [show inRangeOpt 1 12 (some mm) = decide (1 ≤ mm ∧ mm ≤ 12) from rfl,
          decide_eq_true_eq]
        exact ⟨h1m, h2m⟩
      · rw [show inRangeOpt 1 31 (some dd) = decide (1 ≤ dd ∧ dd ≤ 31) from rfl,
          decide_eq_true_eq]
        exact ⟨h1d, le_trans h2d (monthLength_le_31 yy mm)⟩
      · intro mm2 dd2 hmm hdd
        injection hmm with hmm
        injection hdd with hdd
        subst hmm; subst hdd
        simpa [dayLimit] using h2d

/-- C3 counterexample to the claim as stated: 1800-01-01 is a valid
calendar date, yet `validate_date_parts` rejects it (the year-range guard
fires), so "a fully specified triple is accepted exactly when it forms a
valid calendar date" fails in the right-to-left direction. -/
theorem C3_counterexample :
    validate_date_parts (some 1800) (some 1) (some 1) = .error "year must be 1900..3000"
  ∧ isValidCalendarDate 1800 1 1 := by
  constructor
  · rfl
  · constructor
    · omega
    · refine ⟨by omega, by omega, ?_⟩
      unfold monthLength
      norm_num

/-- C3 witness: the amended theorem applied at concrete inputs. -/
theorem C3_witness :
    exOk (validate_date_parts (some 5000) none none) = false
  ∧ validate_date_parts (some 2024) (some 2) (some 29) = .ok (some 2024, some 2, some 29)
  ∧ exOk (validate_date_parts (some 2023) (some 2) (some 29)) = false := by
  refine ⟨?_, ?_, ?_⟩
  · exact C3_validate_date_parts.2.1 (some 5000) none none 5000 rfl (by omega)
  · refine C3_validate_date_parts.2.2.2.2.2.2.1 (some 2024) (some 2) (some 29)
      (by decide) (by decide) (by decide) ?_
    intro mm dd hmm hdd
    injection hmm with hmm
    injection hdd with hdd
    subst hmm; subst hdd
    decide
  · exact C3_validate_date_parts.2.2.2.2.1 (some 2023) 2 29 (by decide)

/-! ## General lemmas about the building blocks -/

theorem except_bind_error {ε α β : Type} (e : ε) (f : α → Except ε β) :
    (Except.error e >>= f) = Except.error e := rfl

theorem except_bind_ok {ε α β : Type} (a : α) (f : α → Except ε β) :
    (Except.ok a >>= f) = f a := rfl

theorem require_admin_not_super {role : String} (h : ¬ role = "super") :
    require_admin role = .error .permissionError := by
  unfold require_admin is_admin
  rw [if_neg]
  simp [h]

theorem require_admin_super : require_admin "super" = .ok () := rfl

/-- Stripping the leading `require_admin` from a successful run. -/
theorem admin_bind_ok {α : Type} {role : String} {body : Except Err α} {a : α}
    (h : (require_admin role >>= fun _ => body) = .ok a) : body = .ok a := by
  by_cases hr : role = "super"
  · subst hr
    rw [require_admin_super, except_bind_ok] at h
    exact h
  · rw [require_admin_not_super hr, except_bind_error] at h
    exact absurd h (by simp)

/-- A successful run implies the administrator role. -/
theorem admin_of_ok {α : Type} {role : String} {body : Except Err α} {a : α}
    (h : (require_admin role >>= fun _ => body) = .ok a) : role = "super" := by
  by_cases hr : role = "super"
  · exact hr
  · rw [require_admin_not_super hr, except_bind_error] at h
    exact absurd h (by simp)

theorem admin_bind_not_super {α : Type} {role : String} (body : Except Err α)
    (h : ¬ role = "super") :
    (require_admin role >>= fun _ => body) = .error .permissionError := by
  rw [require_admin_not_super h, except_bind_error]

theorem any_map_key {α : Type} (l : List α) (f : α → α) (p : α → Bool)
    (hp : ∀ a, p (f a) = p a) : (l.map f).any p = l.any p := by
  induction l with
  | nil => rfl
  | cons a t ih => simp only [List.map_cons, List.any_cons, hp, ih]

theorem find?_map_key {α : Type} (l : List α) (f : α → α) (p : α → Bool)
    (hp : ∀ a, p (f a) = p a) : (l.map f).find? p = (l.find? p).map f := by
  induction l with
  | nil => rfl
  | cons a t ih =>
      by_cases h : p a = true
      · rw [List.map_cons, List.find?_cons_of_pos _ ((hp a).trans h),
          List.find?_cons_of_pos _ h, Option.map_some']
      · rw [List.map_cons, List.find?_cons_of_neg _ (by rw [hp]; simpa using h),
          List.find?_cons_of_neg _ (by simpa using h), ih]

theorem countOut_append {β : Type} [DecidableEq β] (es fs : List (String × β)) (a : String) :
    countOut (es ++ fs) a = countOut es a + countOut fs a := by
  unfold countOut
  rw [List.filter_append, List.length_append]

theorem countOut_deleteOut {β : Type} [DecidableEq β] (es : List (String × β)) (a : String) :
    countOut (deleteOut es a) a = 0 := by
  unfold countOut deleteOut
  rw [List.filter_filter, List.length_eq_zero]
  rw [List.filter_eq_nil_iff]
  intro e _
  simp

theorem countOut_mergeEdge_le {β : Type} [DecidableEq β] (es : List (String × β))
    (a : String) (b : β) (h : countOut es a = 0) : countOut (mergeEdge es a b) a ≤ 1 := by
  unfold mergeEdge
  split
  · omega
  · rw [countOut_append, h]
    unfold countOut
    simp [List.filter]

theorem countOut_rewire_le {β : Type} [DecidableEq β] (t : Bool) (es : List (String × β))
    (a : String) (b : β) : countOut (rewire true t es a b) a ≤ 1 := by
  unfold rewire
  rw [if_pos rfl]
  cases t with
  | false => rw [if_neg (by simp), countOut_deleteOut]; omega
  | true =>
      rw [if_pos rfl]
      exact countOut_mergeEdge_le _ a b (countOut_deleteOut es a)

theorem rewire_subset {β : Type} [DecidableEq β] (s : Bool) (es : List (String × β))
    (a : String) (b : β) (e : String × β) (he : e ∈ rewire s false es a b) : e ∈ es := by
  unfold rewire at he
  cases s with
  | false => simpa using he
  | true =>
      rw [if_pos rfl, if_neg (by simp)] at he
      exact List.mem_of_mem_filter he

theorem deptExists_setDeptName (st : St) (id a : String) (dn : Option String) :
    deptExists (setDeptName st a dn) id = deptExists st id := by
  unfold setDeptName
  split
  · rfl
  · unfold deptExists
    exact any_map_key _ _ _ (fun x => by split <;> rfl)

theorem doctorExists_setDoctorName (st : St) (id a : String) (dn : Option String) :
    doctorExists (setDoctorName st a dn) id = doctorExists st id := by
  unfold setDoctorName
  split
  · rfl
  · unfold doctorExists
    exact any_map_key _ _ _ (fun x => by split <;> rfl)

theorem patientExists_setPatientName (st : St) (id a : String) (dn : Option String) :
    patientExists (setPatientName st a dn) id = patientExists st id := by
  unfold setPatientName
  split
  · rfl
  · unfold patientExists
    exact any_map_key _ _ _ (fun x => by split <;> rfl)

theorem apptExists_setApptFields (st : St) (id a : String) (y m d : Option Int)
    (loc : Option String) :
    apptExists (setApptFields st a y m d loc) id = apptExists st id := by
  unfold setApptFields apptExists
  exact any_map_key _ _ _ (fun x => by split <;> rfl)

theorem obserExists_setObsFields (st : St) (id a : String) (y m d : Option Int)
    (txt : Option String) :
    obserExists (setObsFields st a y m d txt) id = obserExists st id := by
  unfold setObsFields obserExists
  exact any_map_key _ _ _ (fun x => by split <;> rfl)

theorem diagnExists_setDiagFields (st : St) (id a : String) (y m d : Option Int)
    (txt : Option String) :
    diagnExists (setDiagFields st a y m d txt) id = diagnExists st id := by
  unfold setDiagFields diagnExists
  exact any_map_key _ _ _ (fun x => by split <;> rfl)

theorem apptExists_upsert (st : St) (id : String) (y m d : Option Int)
    (loc : Option String) :
    apptExists (upsertAppointment st id y m d loc) id = true := by
  unfold upsertAppointment
  split
  · rename_i h
    unfold apptExists at h ⊢
    rw [any_map_key _ _ _ (fun x => by split <;> rfl)]
    exact h
  · unfold apptExists
    simp [List.any_append]

theorem obserExists_upsert (st : St) (id : String) (y m d : Option Int)
    (txt : Option String) :
    obserExists (upsertObservation st id y m d txt) id = true := by
  unfold upsertObservation
  split
  · rename_i h
    unfold obserExists at h ⊢
    rw [any_map_key _ _ _ (fun x => by split <;> rfl)]
    exact h
  · unfold obserExists
    simp [List.any_append]

theorem diagnExists_upsert (st : St) (id : String) (y m d : Option Int)
    (txt : Option String) :
    diagnExists (upsertDiagnosis st id y m d txt) id = true := by
  unfold upsertDiagnosis
  split
  · rename_i h
    unfold diagnExists at h ⊢
    rw [any_map_key _ _ _ (fun x => by split <;> rfl)]
    exact h
  · unfold diagnExists
    simp [List.any_append]

theorem apptExists_of_find {st : St} {id : String} {a : Appointment}
    (h : findAppointment st id = some a) : apptExists st id = true := by
  unfold findAppointment at h
  unfold apptExists
  rw [List.any_eq_true]
  have h1 := List.find?_some h
  have h2 := List.mem_of_find?_eq_some h
  exact ⟨a, h2, h1⟩

theorem obserExists_of_find {st : St} {id : String} {o : Observation}
    (h : findObservation st id = some o) : obserExists st id = true := by
  unfold findObservation at h
  unfold obserExists
  rw [List.any_eq_true]
  have h1 := List.find?_some h
  have h2 := List.mem_of_find?_eq_some h
  exact ⟨o, h2, h1⟩

theorem diagnExists_of_find {st : St} {id : String} {g : Diagnosis}
    (h : findDiagnosis st id = some g) : diagnExists st id = true := by
  unfold findDiagnosis at h
  unfold diagnExists
  rw [List.any_eq_true]
  have h1 := List.find?_some h
  have h2 := List.mem_of_find?_eq_some h
  exact ⟨g, h2, h1⟩

theorem department_update_edge_bound {role : String} {st : St} {dept_id : String}
    {dn cli : Option String} {st' : St}
    (hok : department_update role st dept_id dn cli = .ok st')
    (hsrc : deptExists st dept_id = true)
    (hcli : is_blank cli = false) :
    countOut st'.belongsTo dept_id ≤ 1 := by
  have h := admin_bind_ok hok
  split at h
  · rename_i hc
    rw [hcli] at hc
    exact absurd hc (by simp)
  · simp only [pure, Except.pure, Except.ok.injEq] at h
    subst h
    have hs : deptExists (setDeptName st dept_id dn) dept_id = true := by
      rw [deptExists_setDeptName]
      exact hsrc
    dsimp only
    rw [hs]
    exact countOut_rewire_le _ _ _ _

theorem find?_append_none {α : Type} (l1 l2 : List α) (p : α → Bool)
    (h : l1.find? p = none) : (l1 ++ l2).find? p = l2.find? p := by
  induction l1 with
  | nil => rfl
  | cons a t ih =>
      by_cases hpa : p a = true
      · rw [List.find?_cons_of_pos _ hpa] at h
        exact absurd h (by simp)
      · rw [List.find?_cons_of_neg _ (by simpa using hpa)] at h
        rw [List.cons_append, List.find?_cons_of_neg _ (by simpa using hpa)]
        exact ih h

theorem any_false_find?_none {α : Type} {l : List α} {p : α → Bool}
    (h : l.any p = false) : l.find? p = none := by
  rw [List.find?_eq_none]
  intro x hx
  rw [List.any_eq_false] at h
  exact h x hx

theorem findDepartment_upsert (st : St) (id nm : String) :
    findDepartment (upsertDepartment st id nm) id = some ⟨id, nm⟩ := by
  unfold upsertDepartment findDepartment
  split
  · rename_i hex
    rw [find?_map_key _ _ _ (fun x => by split <;> rfl)]
    unfold deptExists at hex
    cases hfind : st.departments.find? (fun x => x.dept_id == id) with
    | none =>
        rw [List.any_eq_true] at hex
        obtain ⟨x, hx, hpx⟩ := hex
        rw [List.find?_eq_none] at hfind
        exact absurd hpx (hfind x hx)
    | some x =>
        have hpx := List.find?_some hfind
        have hid : x.dept_id = id := by simpa using hpx
        simp [hid]
  · rename_i hex
    unfold deptExists at hex
    rw [find?_append_none _ _ _ (any_false_find?_none (by simpa using hex))]
    rw [List.find?_cons_of_pos _ (by simp)]

theorem findDoctor_upsert (st : St) (id nm : String) :
    findDoctor (upsertDoctor st id nm) id = some ⟨id, nm⟩ := by
  unfold upsertDoctor findDoctor
  split
  · rename_i hex
    rw [find?_map_key _ _ _ (fun x => by split <;> rfl)]
    unfold doctorExists at hex
    cases hfind : st.doctors.find? (fun x => x.doctor_ID == id) with
    | none =>
        rw [List.any_eq_true] at hex
        obtain ⟨x, hx, hpx⟩ := hex
        rw [List.find?_eq_none] at hfind
        exact absurd hpx (hfind x hx)
    | some x =>
        have hpx := List.find?_some hfind
        have hid : x.doctor_ID = id := by simpa using hpx
        simp [hid]
  · rename_i hex
    unfold doctorExists at hex
    rw [find?_append_none _ _ _ (any_false_find?_none (by simpa using hex))]
    rw [List.find?_cons_of_pos _ (by simp)]

theorem findPatient_upsert (st : St) (id nm : String) :
    findPatient (upsertPatient st id nm) id = some ⟨id, nm⟩ := by
  unfold upsertPatient findPatient
  split
  · rename_i hex
    rw [find?_map_key _ _ _ (fun x => by split <;> rfl)]
    unfold patientExists at hex
    cases hfind : st.patients.find? (fun x => x.patient_ID == id) with
    | none =>
        rw [List.any_eq_true] at hex
        obtain ⟨x, hx, hpx⟩ := hex
        rw [List.find?_eq_none] at hfind
        exact absurd hpx (hfind x hx)
    | some x =>
        have hpx := List.find?_some hfind
        have hid : x.patient_ID = id := by simpa using hpx
        simp [hid]
  · rename_i hex
    unfold patientExists at hex
    rw [find?_append_none _ _ _ (any_false_find?_none (by simpa using hex))]
    rw [List.find?_cons_of_pos _ (by simp)]

theorem findAppointment_upsert (st : St) (id : String) (y m d : Option Int)
    (loc : Option String) :
    findAppointment (upsertAppointment st id y m d loc) id = some ⟨id, y, m, d, loc⟩ := by
  unfold upsertAppointment findAppointment
  split
  · rename_i hex
    rw [find?_map_key _ _ _ (fun x => by split <;> rfl)]
    unfold apptExists at hex
    cases hfind : st.appointments.find? (fun x => x.appoint_id == id) with
    | none =>
        rw [List.any_eq_true] at hex
        obtain ⟨x, hx, hpx⟩ := hex
        rw [List.find?_eq_none] at hfind
        exact absurd hpx (hfind x hx)
    | some x =>
        have hpx := List.find?_some hfind
        have hid : x.appoint_id = id := by simpa using hpx
        simp [hid]
  · rename_i hex
    unfold apptExists at hex
    rw [find?_append_none _ _ _ (any_false_find?_none (by simpa using hex))]
    rw [List.find?_cons_of_pos _ (by simp)]

theorem findObservation_upsert (st : St) (id : String) (y m d : Option Int)
    (txt : Option String) :
    findObservation (upsertObservation st id y m d txt) id = some ⟨id, y, m, d, txt⟩ := by
  unfold upsertObservation findObservation
  split
  · rename_i hex
    rw [find?_map_key _ _ _ (fun x => by split <;> rfl)]
    unfold obserExists at hex
    cases hfind : st.observations.find? (fun x => x.obser_id == id) with
    | none =>
        rw [List.any_eq_true] at hex
        obtain ⟨x, hx, hpx⟩ := hex
        rw [List.find?_eq_none] at hfind
        exact absurd hpx (hfind x hx)
    | some x =>
        have hpx := List.find?_some hfind
        have hid : x.obser_id = id := by simpa using hpx
        simp [hid]
  · rename_i hex
    unfold obserExists at hex
    rw [find?_append_none _ _ _ (any_false_find?_none (by simpa using hex))]
    rw [List.find?_cons_of_pos _ (by simp)]

theorem findDiagnosis_upsert (st : St) (id : String) (y m d : Option Int)
    (txt : Option String) :
    findDiagnosis (upsertDiagnosis st id y m d txt) id = some ⟨id, y, m, d, txt⟩ := by
  unfold upsertDiagnosis findDiagnosis
  split
  · rename_i hex
    rw [find?_map_key _ _ _ (fun x => by split <;> rfl)]
    unfold diagnExists at hex
    cases hfind : st.diagnoses.find? (fun x => x.diagn_id == id) with
    | none =>
        rw [List.any_eq_true] at hex
        obtain ⟨x, hx, hpx⟩ := hex
        rw [List.find?_eq_none] at hfind
        exact absurd hpx (hfind x hx)
    | some x =>
        have hpx := List.find?_some hfind
        have hid : x.diagn_id = id := by simpa using hpx
        simp [hid]
  · rename_i hex
    unfold diagnExists at hex
    rw [find?_append_none _ _ _ (any_false_find?_none (by simpa using hex))]
    rw [List.find?_cons_of_pos _ (by simp)]

theorem findClinic_setClinicFields (st : St) (id : String) (nm addr : Option String) :
    findClinic (setClinicFields st id nm addr) id = (findClinic st id).map (clinicUpd nm addr) := by
  unfold setClinicFields findClinic
  rw [find?_map_key _ _ _ (fun x => by split <;> rfl)]
  cases hfind : st.clinics.find? (fun c => c.cli_id == id) with
  | none => rfl
  | some c =>
      have hpx := List.find?_some hfind
      rw [Option.map_some', if_pos hpx]
      rfl

theorem findDepartment_setDeptName (st : St) (id : String) (dn : Option String)
    (hnb : is_blank dn = false) :
    findDepartment (setDeptName st id dn) id = (findDepartment st id).map (deptUpd dn) := by
  unfold setDeptName
  rw [if_neg (by rw [hnb]; simp)]
  unfold findDepartment
  rw [find?_map_key _ _ _ (fun x => by split <;> rfl)]
  cases hfind : st.departments.find? (fun x => x.dept_id == id) with
  | none => rfl
  | some x =>
      have hpx := List.find?_some hfind
      rw [Option.map_some', if_pos hpx]
      rfl

theorem findDoctor_setDoctorName (st : St) (id : String) (nm : Option String)
    (hnb : is_blank nm = false) :
    findDoctor (setDoctorName st id nm) id = (findDoctor st id).map (docUpd nm) := by
  unfold setDoctorName
  rw [if_neg (by rw [hnb]; simp)]
  unfold findDoctor
  rw [find?_map_key _ _ _ (fun x => by split <;> rfl)]
  cases hfind : st.doctors.find? (fun x => x.doctor_ID == id) with
  | none => rfl
  | some x =>
      have hpx := List.find?_some hfind
      rw [Option.map_some', if_pos hpx]
      rfl

theorem findPatient_setPatientName (st : St) (id : String) (nm : Option String)
    (hnb : is_blank nm = false) :
    findPatient (setPatientName st id nm) id = (findPatient st id).map (patUpd nm) := by
  unfold setPatientName
  rw [if_neg (by rw [hnb]; simp)]
  unfold findPatient
  rw [find?_map_key _ _ _ (fun x => by split <;> rfl)]
  cases hfind : st.patients.find? (fun x => x.patient_ID == id) with
  | none => rfl
  | some x =>
      have hpx := List.find?_some hfind
      rw [Option.map_some', if_pos hpx]
      rfl

theorem findAppointment_setApptFields (st : St) (id : String) (y m d : Option Int)
    (loc : Option String) :
    findAppointment (setApptFields st id y m d loc) id =
      (findAppointment st id).map (apptUpd y m d loc) := by
  unfold setApptFields findAppointment
  rw [find?_map_key _ _ _ (fun x => by split <;> rfl)]
  cases hfind : st.appointments.find? (fun x => x.appoint_id == id) with
  | none => rfl
  | some x =>
      have hpx := List.find?_some hfind
      rw [Option.map_some', if_pos hpx]
      rfl

theorem findObservation_setObsFields (st : St) (id : String) (y m d : Option Int)
    (txt : Option String) :
    findObservation (setObsFields st id y m d txt) id =
      (findObservation st id).map (obsUpd y m d txt) := by
  unfold setObsFields findObservation
  rw [find?_map_key _ _ _ (fun x => by split <;> rfl)]
  cases hfind : st.observations.find? (fun x => x.obser_id == id) with
  | none => rfl
  | some x =>
      have hpx := List.find?_some hfind
      rw [Option.map_some', if_pos hpx]
      rfl

theorem findDiagnosis_setDiagFields (st : St) (id : String) (y m d : Option Int)
    (txt : Option String) :
    findDiagnosis (setDiagFields st id y m d txt) id =
      (findDiagnosis st id).map (diagUpd y m d txt) := by
  unfold setDiagFields findDiagnosis
  rw [find?_map_key _ _ _ (fun x => by split <;> rfl)]
  cases hfind : st.diagnoses.find? (fun x => x.diagn_id == id) with
  | none => rfl
  | some x =>
      have hpx := List.find?_some hfind
      rw [Option.map_some', if_pos hpx]
      rfl

theorem clinicExists_setDeptName (st : St) (a : String) (dn : Option String) (id : String) :
    clinicExists (setDeptName st a dn) id = clinicExists st id := by
  unfold setDeptName
  split <;> rfl

theorem setDeptName_belongsTo (st : St) (a : String) (dn : Option String) :
    (setDeptName st a dn).belongsTo = st.belongsTo := by
  unfold setDeptName
  split <;> rfl

theorem deptExists_setDoctorName (st : St) (a : String) (nm : Option String) (id : String) :
    deptExists (setDoctorName st a nm) id = deptExists st id := by
  unfold setDoctorName
  split <;> rfl

theorem setDoctorName_worksIn (st : St) (a : String) (nm : Option String) :
    (setDoctorName st a nm).worksIn = st.worksIn := by
  unfold setDoctorName
  split <;> rfl

theorem doctorExists_setPatientName (st : St) (a : String) (nm : Option String) (id : String) :
    doctorExists (setPatientName st a nm) id = doctorExists st id := by
  unfold setPatientName
  split <;> rfl

theorem setPatientName_assignedTo (st : St) (a : String) (nm : Option String) :
    (setPatientName st a nm).assignedTo = st.assignedTo := by
  unfold setPatientName
  split <;> rfl

theorem clinicExists_upsertDepartment (st : St) (id nm : String) (c : String) :
    clinicExists (upsertDepartment st id nm) c = clinicExists st c := by
  unfold upsertDepartment
  split <;> rfl

theorem upsertDepartment_belongsTo (st : St) (id nm : String) :
    (upsertDepartment st id nm).belongsTo = st.belongsTo := by
  unfold upsertDepartment
  split <;> rfl

theorem deptExists_upsertDoctor (st : St) (id nm : String) (c : String) :
    deptExists (upsertDoctor st id nm) c = deptExists st c := by
  unfold upsertDoctor
  split <;> rfl

theorem upsertDoctor_worksIn (st : St) (id nm : String) :
    (upsertDoctor st id nm).worksIn = st.worksIn := by
  unfold upsertDoctor
  split <;> rfl

theorem doctorExists_upsertPatient (st : St) (id nm : String) (c : String) :
    doctorExists (upsertPatient st id nm) c = doctorExists st c := by
  unfold upsertPatient
  split <;> rfl

theorem upsertPatient_assignedTo (st : St) (id nm : String) :
    (upsertPatient st id nm).assignedTo = st.assignedTo := by
  unfold upsertPatient
  split <;> rfl

theorem patientExists_upsertAppointment (st : St) (id : String) (y m d : Option Int)
    (loc : Option String) (c : String) :
    patientExists (upsertAppointment st id y m d loc) c = patientExists st c := by
  unfold upsertAppointment
  split <;> rfl

theorem doctorExists_upsertAppointment (st : St) (id : String) (y m d : Option Int)
    (loc : Option String) (c : String) :
    doctorExists (upsertAppointment st id y m d loc) c = doctorExists st c := by
  unfold upsertAppointment
  split <;> rfl

theorem apptExists_upsertObservation (st : St) (id : String) (y m d : Option Int)
    (txt : Option String) (c : String) :
    apptExists (upsertObservation st id y m d txt) c = apptExists st c := by
  unfold upsertObservation
  split <;> rfl

theorem blobExists_upsertObservation (st : St) (id : String) (y m d : Option Int)
    (txt : Option String) (c : Int) :
    blobExists (upsertObservation st id y m d txt) c = blobExists st c := by
  unfold upsertObservation
  split <;> rfl

theorem obserExists_upsertDiagnosis (st : St) (id : String) (y m d : Option Int)
    (txt : Option String) (c : String) :
    obserExists (upsertDiagnosis st id y m d txt) c = obserExists st c := by
  unfold upsertDiagnosis
  split <;> rfl

theorem blobExists_upsertDiagnosis (st : St) (id : String) (y m d : Option Int)
    (txt : Option String) (c : Int) :
    blobExists (upsertDiagnosis st id y m d txt) c = blobExists st c := by
  unfold upsertDiagnosis
  split <;> rfl

theorem apptExists_set_apptPatient (st : St) (E : List (String × String)) (id : String) :
    apptExists { st with apptPatient := E } id = apptExists st id := rfl

theorem obserExists_set_ofAppointment (st : St) (E : List (String × String)) (id : String) :
    obserExists { st with ofAppointment := E } id = obserExists st id := rfl

theorem diagnExists_set_ofObservation (st : St) (E : List (String × String)) (id : String) :
    diagnExists { st with ofObservation := E } id = diagnExists st id := rfl

theorem doctor_update_edge_bound {role : String} {st : St} {doctor_id : String}
    {dep nm : Option String} {st' : St}
    (hok : doctor_update role st doctor_id dep nm = .ok st')
    (hsrc : doctorExists st doctor_id = true)
    (hdep : is_blank dep = false) :
    countOut st'.worksIn doctor_id ≤ 1 := by
  have h := admin_bind_ok hok
  split at h
  · rename_i hc
    rw [hdep] at hc
    exact absurd hc (by simp)
  · simp only [pure, Except.pure, Except.ok.injEq] at h
    subst h
    have hs : doctorExists (setDoctorName st doctor_id nm) doctor_id = true := by
      rw [doctorExists_setDoctorName]
      exact hsrc
    dsimp only
    rw [hs]
    exact countOut_rewire_le _ _ _ _

theorem patient_update_edge_bound {role : String} {st : St} {patient_id : String}
    {doc nm : Option String} {st' : St}
    (hok : patient_update role st patient_id doc nm = .ok st')
    (hsrc : patientExists st patient_id = true)
    (hdoc : is_blank doc = false) :
    countOut st'.assignedTo patient_id ≤ 1 := by
  have h := admin_bind_ok hok
  split at h
  · rename_i hc
    rw [hdoc] at hc
    exact absurd hc (by simp)
  · simp only [pure, Except.pure, Except.ok.injEq] at h
    subst h
    have hs : patientExists (setPatientName st patient_id nm) patient_id = true := by
      rw [patientExists_setPatientName]
      exact hsrc
    dsimp only
    rw [hs]
    exact countOut_rewire_le _ _ _ _

theorem appointment_update_patient_edge_bound {role : String} {st : St} {appoint_id : String}
    {y m d : Option Int} {loc pat doc : Option String} {st' : St}
    (hok : appointment_update role st appoint_id y m d loc pat doc = .ok st')
    (hpat : is_blank pat = false) :
    countOut st'.apptPatient appoint_id ≤ 1 := by
  have h := admin_bind_ok hok
  split at h
  · exact absurd h (by simp)
  · rename_i old hfind
    split at h
    · exact absurd h (by simp)
    · simp only [pure, Except.pure, Except.ok.injEq] at h
      subst h
      have hs1 : apptExists (setApptFields st appoint_id y m d loc) appoint_id = true := by
        rw [apptExists_setApptFields]
        exact apptExists_of_find hfind
      split
      · rw [if_neg (by rw [hpat]; simp)]
        dsimp only
        rw [hs1]
        exact countOut_rewire_le _ _ _ _
      · dsimp only
        rw [if_neg (by rw [hpat]; simp)]
        dsimp only
        rw [hs1]
        exact countOut_rewire_le _ _ _ _

theorem appointment_update_doctor_edge_bound {role : String} {st : St} {appoint_id : String}
    {y m d : Option Int} {loc pat doc : Option String} {st' : St}
    (hok : appointment_update role st appoint_id y m d loc pat doc = .ok st')
    (hdoc : is_blank doc = false) :
    countOut st'.apptDoctor appoint_id ≤ 1 := by
  have h := admin_bind_ok hok
  split at h
  · exact absurd h (by simp)
  · rename_i old hfind
    split at h
    · exact absurd h (by simp)
    · simp only [pure, Except.pure, Except.ok.injEq] at h
      subst h
      have hs1 : apptExists (setApptFields st appoint_id y m d loc) appoint_id = true := by
        rw [apptExists_setApptFields]
        exact apptExists_of_find hfind
      rw [if_neg (by rw [hdoc]; simp)]
      dsimp only
      by_cases hpat2 : is_blank pat = true
      · rw [if_pos hpat2, hs1]
        exact countOut_rewire_le _ _ _ _
      · rw [if_neg hpat2, apptExists_set_apptPatient, hs1]
        exact countOut_rewire_le _ _ _ _

theorem observation_update_appt_edge_bound {role : String} {st : St} {obser_id : String}
    {y m d : Option Int} {ap txt : Option String} {oid : Option Int} {st' : St}
    (hok : observation_update role st obser_id y m d ap txt oid = .ok st')
    (hap : is_blank ap = false) :
    countOut st'.ofAppointment obser_id ≤ 1 := by
  have h := admin_bind_ok hok
  split at h
  · exact absurd h (by simp)
  · rename_i old hfind
    split at h
    · exact absurd h (by simp)
    · simp only [pure, Except.pure, Except.ok.injEq] at h
      subst h
      have hs1 : obserExists (setObsFields st obser_id y m d txt) obser_id = true := by
        rw [obserExists_setObsFields]
        exact obserExists_of_find hfind
      split
      · dsimp only
        rw [if_neg (by rw [hap]; simp)]
        dsimp only
        rw [hs1]
        exact countOut_rewire_le _ _ _ _
      · rw [if_neg (by rw [hap]; simp)]
        dsimp only
        rw [hs1]
        exact countOut_rewire_le _ _ _ _

theorem observation_update_file_edge_bound {role : String} {st : St} {obser_id : String}
    {y m d : Option Int} {ap txt : Option String} {oid : Option Int} {st' : St}
    (hok : observation_update role st obser_id y m d ap txt oid = .ok st')
    (hoid : oid.isSome = true) :
    countOut st'.obsFile obser_id ≤ 1 := by
  have h := admin_bind_ok hok
  split at h
  · exact absurd h (by simp)
  · rename_i old hfind
    split at h
    · exact absurd h (by simp)
    · simp only [pure, Except.pure, Except.ok.injEq] at h
      subst h
      have hs1 : obserExists (setObsFields st obser_id y m d txt) obser_id = true := by
        rw [obserExists_setObsFields]
        exact obserExists_of_find hfind
      rw [if_pos hoid]
      dsimp only
      by_cases hap2 : is_blank ap = true
      · rw [if_pos hap2, hs1]
        exact countOut_rewire_le _ _ _ _
      · rw [if_neg hap2, obserExists_set_ofAppointment, hs1]
        exact countOut_rewire_le _ _ _ _

theorem diagnosis_update_obser_edge_bound {role : String} {st : St} {diagn_id : String}
    {y m d : Option Int} {ob txt : Option String} {oid : Option Int} {st' : St}
    (hok : diagnosis_update role st diagn_id y m d ob txt oid = .ok st')
    (hob : is_blank ob = false) :
    countOut st'.ofObservation diagn_id ≤ 1 := by
  have h := admin_bind_ok hok
  split at h
  · exact absurd h (by simp)
  · rename_i old hfind
    split at h
    · exact absurd h (by simp)
    · simp only [pure, Except.pure, Except.ok.injEq] at h
      subst h
      have hs1 : diagnExists (setDiagFields st diagn_id y m d txt) diagn_id = true := by
        rw [diagnExists_setDiagFields]
        exact diagnExists_of_find hfind
      split
      · dsimp only
        rw [if_neg (by rw [hob]; simp)]
        dsimp only
        rw [hs1]
        exact countOut_rewire_le _ _ _ _
      · rw [if_neg (by rw [hob]; simp)]
        dsimp only
        rw [hs1]
        exact countOut_rewire_le _ _ _ _

theorem diagnosis_update_file_edge_bound {role : String} {st : St} {diagn_id : String}
    {y m d : Option Int} {ob txt : Option String} {oid : Option Int} {st' : St}
    (hok : diagnosis_update role st diagn_id y m d ob txt oid = .ok st')
    (hoid : oid.isSome = true) :
    countOut st'.diagFile diagn_id ≤ 1 := by
  have h := admin_bind_ok hok
  split at h
  · exact absurd h (by simp)
  · rename_i old hfind
    split at h
    · exact absurd h (by simp)
    · simp only [pure, Except.pure, Except.ok.injEq] at h
      subst h
      have hs1 : diagnExists (setDiagFields st diagn_id y m d txt) diagn_id = true := by
        rw [diagnExists_setDiagFields]
        exact diagnExists_of_find hfind
      rw [if_pos hoid]
      dsimp only
      by_cases hob2 : is_blank ob = true
      · rw [if_pos hob2, hs1]
        exact countOut_rewire_le _ _ _ _
      · rw [if_neg hob2, diagnExists_set_ofObservation, hs1]
        exact countOut_rewire_le _ _ _ _

theorem appointment_insert_patient_edge_bound {role : String} {st : St} {appoint_id : String}
    {y m d : Option Int} {loc pat doc : Option String} {st' : St}
    (hok : appointment_insert role st appoint_id y m d loc pat doc = .ok st')
    (hpat : is_blank pat = false) :
    countOut st'.apptPatient appoint_id ≤ 1 := by
  have h := admin_bind_ok hok
  split at h
  · exact absurd h (by simp)
  · rename_i yy mm dd hval
    simp only [pure, Except.pure, Except.ok.injEq] at h
    subst h
    have hs1 : apptExists (upsertAppointment st appoint_id yy mm dd (orNone loc)) appoint_id = true :=
      apptExists_upsert _ _ _ _ _ _
    split
    · rw [if_neg (by rw [hpat]; simp)]
      dsimp only
      rw [hs1]
      exact countOut_rewire_le _ _ _ _
    · dsimp only
      rw [if_neg (by rw [hpat]; simp)]
      dsimp only
      rw [hs1]
      exact countOut_rewire_le _ _ _ _

theorem appointment_insert_doctor_edge_bound {role : String} {st : St} {appoint_id : String}
    {y m d : Option Int} {loc pat doc : Option String} {st' : St}
    (hok : appointment_insert role st appoint_id y m d loc pat doc = .ok st')
    (hdoc : is_blank doc = false) :
    countOut st'.apptDoctor appoint_id ≤ 1 := by
  have h := admin_bind_ok hok
  split at h
  · exact absurd h (by simp)
  · rename_i yy mm dd hval
    simp only [pure, Except.pure, Except.ok.injEq] at h
    subst h
    have hs1 : apptExists (upsertAppointment st appoint_id yy mm dd (orNone loc)) appoint_id = true :=
      apptExists_upsert _ _ _ _ _ _
    rw [if_neg (by rw [hdoc]; simp)]
    dsimp only
    by_cases hpat2 : is_blank pat = true
    · rw [if_pos hpat2, hs1]
      exact countOut_rewire_le _ _ _ _
    · rw [if_neg hpat2, apptExists_set_apptPatient, hs1]
      exact countOut_rewire_le _ _ _ _

theorem observation_insert_appt_edge_bound {role : String} {st : St} {obser_id : String}
    {y m d : Option Int} {ap txt : Option String} {oid : Option Int} {st' : St}
    (hok : observation_insert role st obser_id y m d ap txt oid = .ok st')
    (hap : is_blank ap = false) :
    countOut st'.ofAppointment obser_id ≤ 1 := by
  have h := admin_bind_ok hok
  split at h
  · exact absurd h (by simp)
  · rename_i yy mm dd hval
    simp only [pure, Except.pure, Except.ok.injEq] at h
    subst h
    have hs1 : obserExists (upsertObservation st obser_id yy mm dd (orNone txt)) obser_id = true :=
      obserExists_upsert _ _ _ _ _ _
    split
    · dsimp only
      rw [if_neg (by rw [hap]; simp)]
      dsimp only
      rw [hs1]
      exact countOut_rewire_le _ _ _ _
    · rw [if_neg (by rw [hap]; simp)]
      dsimp only
      rw [hs1]
      exact countOut_rewire_le _ _ _ _

theorem observation_insert_file_edge_bound {role : String} {st : St} {obser_id : String}
    {y m d : Option Int} {ap txt : Option String} {oid : Option Int} {st' : St}
    (hok : observation_insert role st obser_id y m d ap txt oid = .ok st')
    (hoid : oid.isSome = true) :
    countOut st'.obsFile obser_id ≤ 1 := by
  have h := admin_bind_ok hok
  split at h
  · exact absurd h (by simp)
  · rename_i yy mm dd hval
    simp only [pure, Except.pure, Except.ok.injEq] at h
    subst h
    have hs1 : obserExists (upsertObservation st obser_id yy mm dd (orNone txt)) obser_id = true :=
      obserExists_upsert _ _ _ _ _ _
    rw [if_pos hoid]
    dsimp only
    by_cases hap2 : is_blank ap = true
    · rw [if_pos hap2, hs1]
      exact countOut_rewire_le _ _ _ _
    · rw [if_neg hap2, obserExists_set_ofAppointment, hs1]
      exact countOut_rewire_le _ _ _ _

theorem diagnosis_insert_obser_edge_bound {role : String} {st : St} {diagn_id : String}
    {y m d : Option Int} {ob txt : Option String} {oid : Option Int} {st' : St}
    (hok : diagnosis_insert role st diagn_id y m d ob txt oid = .ok st')
    (hob : is_blank ob = false) :
    countOut st'.ofObservation diagn_id ≤ 1 := by
  have h := admin_bind_ok hok
  split at h
  · exact absurd h (by simp)
  · rename_i yy mm dd hval
    simp only [pure, Except.pure, Except.ok.injEq] at h
    subst h
    have hs1 : diagnExists (upsertDiagnosis st diagn_id yy mm dd (orNone txt)) diagn_id = true :=
      diagnExists_upsert _ _ _ _ _ _
    split
    · dsimp only
      rw [if_neg (by rw [hob]; simp)]
      dsimp only
      rw [hs1]
      exact countOut_rewire_le _ _ _ _
    · rw [if_neg (by rw [hob]; simp)]
      dsimp only
      rw [hs1]
      exact countOut_rewire_le _ _ _ _

theorem diagnosis_insert_file_edge_bound {role : String} {st : St} {diagn_id : String}
    {y m d : Option Int} {ob txt : Option String} {oid : Option Int} {st' : St}
    (hok : diagnosis_insert role st diagn_id y m d ob txt oid = .ok st')
    (hoid : oid.isSome = true) :
    countOut st'.diagFile diagn_id ≤ 1 := by
  have h := admin_bind_ok hok
  split at h
  · exact absurd h (by simp)
  · rename_i yy mm dd hval
    simp only [pure, Except.pure, Except.ok.injEq] at h
    subst h
    have hs1 : diagnExists (upsertDiagnosis st diagn_id yy mm dd (orNone txt)) diagn_id = true :=
      diagnExists_upsert _ _ _ _ _ _
    rw [if_pos hoid]
    dsimp only
    by_cases hob2 : is_blank ob = true
    · rw [if_pos hob2, hs1]
      exact countOut_rewire_le _ _ _ _
    · rw [if_neg hob2, diagnExists_set_ofObservation, hs1]
      exact countOut_rewire_le _ _ _ _

theorem department_insert_missing_clinic {st : St} {dept_id nm cli : String}
    (hcb : is_blank (some cli) = false)
    (hmiss : clinicExists st cli = false) :
    department_insert "super" st dept_id nm (some cli) = .ok (upsertDepartment st dept_id nm) := by
  simp only [department_insert, require_admin_super, except_bind_ok, hcb,
    Bool.false_eq_true, if_false, Option.getD_some]
  rw [clinicExists_upsertDepartment, hmiss]
  simp only [Bool.false_eq_true, if_false]
  rfl

theorem doctor_insert_missing_dept {st : St} {did nm dep : String}
    (hcb : is_blank (some dep) = false)
    (hmiss : deptExists st dep = false) :
    doctor_insert "super" st did nm (some dep) = .ok (upsertDoctor st did nm) := by
  simp only [doctor_insert, require_admin_super, except_bind_ok, hcb,
    Bool.false_eq_true, if_false, Option.getD_some]
  rw [deptExists_upsertDoctor, hmiss]
  simp only [Bool.and_false, Bool.false_eq_true, if_false]
  rfl

theorem patient_insert_missing_doctor {st : St} {pid nm did : String}
    (hcb : is_blank (some did) = false)
    (hmiss : doctorExists st did = false) :
    patient_insert "super" st pid nm (some did) = .ok (upsertPatient st pid nm) := by
  simp only [patient_insert, require_admin_super, except_bind_ok, hcb,
    Bool.false_eq_true, if_false, Option.getD_some]
  rw [doctorExists_upsertPatient, hmiss]
  simp only [Bool.and_false, Bool.false_eq_true, if_false]
  rfl

theorem department_update_missing_clinic {st : St} {dept_id : String} {dn : Option String}
    {cli : String}
    (hcb : is_blank (some cli) = false)
    (hmiss : clinicExists st cli = false) :
    department_update "super" st dept_id dn (some cli) =
      .ok { setDeptName st dept_id dn with
            belongsTo := rewire (deptExists st dept_id) false
              (setDeptName st dept_id dn).belongsTo dept_id cli } := by
  simp only [department_update, require_admin_super, except_bind_ok, hcb,
    Bool.false_eq_true, if_false, Option.getD_some]
  rw [clinicExists_setDeptName, hmiss, deptExists_setDeptName]
  rfl

theorem doctor_update_missing_dept {st : St} {did : String} {nm : Option String}
    {dep : String}
    (hcb : is_blank (some dep) = false)
    (hmiss : deptExists st dep = false) :
    doctor_update "super" st did (some dep) nm =
      .ok { setDoctorName st did nm with
            worksIn := rewire (doctorExists st did) false
              (setDoctorName st did nm).worksIn did dep } := by
  simp only [doctor_update, require_admin_super, except_bind_ok, hcb,
    Bool.false_eq_true, if_false, Option.getD_some]
  rw [deptExists_setDoctorName, hmiss, doctorExists_setDoctorName]
  rfl

theorem patient_update_missing_doctor {st : St} {pid : String} {nm : Option String}
    {did : String}
    (hcb : is_blank (some did) = false)
    (hmiss : doctorExists st did = false) :
    patient_update "super" st pid (some did) nm =
      .ok { setPatientName st pid nm with
            assignedTo := rewire (patientExists st pid) false
              (setPatientName st pid nm).assignedTo pid did } := by
  simp only [patient_update, require_admin_super, except_bind_ok, hcb,
    Bool.false_eq_true, if_false, Option.getD_some]
  rw [doctorExists_setPatientName, hmiss, patientExists_setPatientName]
  rfl

theorem patientExists_setApptFields (st : St) (a : String) (y m d : Option Int)
    (loc : Option String) (c : String) :
    patientExists (setApptFields st a y m d loc) c = patientExists st c := rfl

theorem doctorExists_setApptFields (st : St) (a : String) (y m d : Option Int)
    (loc : Option String) (c : String) :
    doctorExists (setApptFields st a y m d loc) c = doctorExists st c := rfl

theorem apptExists_setObsFields (st : St) (a : String) (y m d : Option Int)
    (txt : Option String) (c : String) :
    apptExists (setObsFields st a y m d txt) c = apptExists st c := rfl

theorem blobExists_setObsFields (st : St) (a : String) (y m d : Option Int)
    (txt : Option String) (c : Int) :
    blobExists (setObsFields st a y m d txt) c = blobExists st c := rfl

theorem obserExists_setDiagFields_target (st : St) (a : String) (y m d : Option Int)
    (txt : Option String) (c : String) :
    obserExists (setDiagFields st a y m d txt) c = obserExists st c := rfl

theorem blobExists_setDiagFields (st : St) (a : String) (y m d : Option Int)
    (txt : Option String) (c : Int) :
    blobExists (setDiagFields st a y m d txt) c = blobExists st c := rfl

theorem appointment_insert_missing_patient {st : St} {appoint_id : String}
    {y m d : Option Int} {loc : Option String} {p : String}
    (hval : validate_date_parts y m d = .ok (y, m, d))
    (hcb : is_blank (some p) = false)
    (hmiss : patientExists st p = false) :
    appointment_insert "super" st appoint_id y m d loc (some p) none =
      .ok { upsertAppointment st appoint_id y m d (orNone loc) with
            apptPatient := rewire true false
              (upsertAppointment st appoint_id y m d (orNone loc)).apptPatient appoint_id p } := by
  simp only [appointment_insert, require_admin_super, except_bind_ok, hval, hcb,
    Bool.false_eq_true, if_false, Option.getD_some]
  rw [apptExists_upsert, patientExists_upsertAppointment, hmiss]
  simp only [is_blank, eq_self_iff_true, if_true]
  rfl

theorem appointment_insert_missing_doctor {st : St} {appoint_id : String}
    {y m d : Option Int} {loc : Option String} {dc : String}
    (hval : validate_date_parts y m d = .ok (y, m, d))
    (hcb : is_blank (some dc) = false)
    (hmiss : doctorExists st dc = false) :
    appointment_insert "super" st appoint_id y m d loc none (some dc) =
      .ok { upsertAppointment st appoint_id y m d (orNone loc) with
            apptDoctor := rewire true false
              (upsertAppointment st appoint_id y m d (orNone loc)).apptDoctor appoint_id dc } := by
  have hcb2 : (dc.toList.all Char.isWhitespace) = false := hcb
  simp only [appointment_insert, require_admin_super, except_bind_ok, hval, hcb, hcb2,
    Bool.false_eq_true, if_false, Option.getD_some, is_blank, eq_self_iff_true, if_true]
  rw [apptExists_upsert, doctorExists_upsertAppointment, hmiss]
  rfl

theorem observation_insert_missing_appt {st : St} {obser_id : String}
    {y m d : Option Int} {txt : Option String} {ap : String}
    (hval : validate_date_parts y m d = .ok (y, m, d))
    (hcb : is_blank (some ap) = false)
    (hmiss : apptExists st ap = false) :
    observation_insert "super" st obser_id y m d (some ap) txt none =
      .ok { upsertObservation st obser_id y m d (orNone txt) with
            ofAppointment := rewire true false
              (upsertObservation st obser_id y m d (orNone txt)).ofAppointment obser_id ap } := by
  simp only [observation_insert, require_admin_super, except_bind_ok, hval, hcb,
    Bool.false_eq_true, if_false, Option.getD_some, Option.isSome_none]
  rw [obserExists_upsert, apptExists_upsertObservation, hmiss]
  rfl

theorem observation_insert_missing_blob {st : St} {obser_id : String}
    {y m d : Option Int} {txt : Option String} {oid : Int}
    (hval : validate_date_parts y m d = .ok (y, m, d))
    (hmiss : blobExists st oid = false) :
    observation_insert "super" st obser_id y m d none txt (some oid) =
      .ok { upsertObservation st obser_id y m d (orNone txt) with
            obsFile := rewire true false
              (upsertObservation st obser_id y m d (orNone txt)).obsFile obser_id oid } := by
  simp only [observation_insert, require_admin_super, except_bind_ok, hval,
    is_blank, eq_self_iff_true, if_true, Option.isSome_some, Option.getD_some]
  rw [obserExists_upsert, blobExists_upsertObservation, hmiss]
  rfl

theorem diagnosis_insert_missing_obser {st : St} {diagn_id : String}
    {y m d : Option Int} {txt : Option String} {ob : String}
    (hval : validate_date_parts y m d = .ok (y, m, d))
    (hcb : is_blank (some ob) = false)
    (hmiss : obserExists st ob = false) :
    diagnosis_insert "super" st diagn_id y m d (some ob) txt none =
      .ok { upsertDiagnosis st diagn_id y m d (orNone txt) with
            ofObservation := rewire true false
              (upsertDiagnosis st diagn_id y m d (orNone txt)).ofObservation diagn_id ob } := by
  simp only [diagnosis_insert, require_admin_super, except_bind_ok, hval, hcb,
    Bool.false_eq_true, if_false, Option.getD_some, Option.isSome_none]
  rw [diagnExists_upsert, obserExists_upsertDiagnosis, hmiss]
  rfl

theorem diagnosis_insert_missing_blob {st : St} {diagn_id : String}
    {y m d : Option Int} {txt : Option String} {oid : Int}
    (hval : validate_date_parts y m d = .ok (y, m, d))
    (hmiss : blobExists st oid = false) :
    diagnosis_insert "super" st diagn_id y m d none txt (some oid) =
      .ok { upsertDiagnosis st diagn_id y m d (orNone txt) with
            diagFile := rewire true false
              (upsertDiagnosis st diagn_id y m d (orNone txt)).diagFile diagn_id oid } := by
  simp only [diagnosis_insert, require_admin_super, except_bind_ok, hval,
    is_blank, eq_self_iff_true, if_true, Option.isSome_some, Option.getD_some]
  rw [diagnExists_upsert, blobExists_upsertDiagnosis, hmiss]
  rfl

theorem appointment_update_missing_patient {st : St} {appoint_id : String}
    {old : Appointment} {loc : Option String} {p : String}
    (hfind : findAppointment st appoint_id = some old)
    (hval : validate_date_parts old.appoint_year old.appoint_month old.appoint_day =
      .ok (old.appoint_year, old.appoint_month, old.appoint_day))
    (hcb : is_blank (some p) = false)
    (hmiss : patientExists st p = false) :
    appointment_update "super" st appoint_id none none none loc (some p) none =
      .ok { setApptFields st appoint_id none none none loc with
            apptPatient := rewire (apptExists st appoint_id) false
              (setApptFields st appoint_id none none none loc).apptPatient appoint_id p } := by
  simp only [appointment_update, require_admin_super, except_bind_ok, hfind, mergeOld,
    hval, hcb, Bool.false_eq_true, if_false, Option.getD_some]
  rw [apptExists_setApptFields, patientExists_setApptFields, hmiss]
  simp only [is_blank, eq_self_iff_true, if_true]
  rfl

theorem appointment_update_missing_doctor {st : St} {appoint_id : String}
    {old : Appointment} {loc : Option String} {dc : String}
    (hfind : findAppointment st appoint_id = some old)
    (hval : validate_date_parts old.appoint_year old.appoint_month old.appoint_day =
      .ok (old.appoint_year, old.appoint_month, old.appoint_day))
    (hcb : is_blank (some dc) = false)
    (hmiss : doctorExists st dc = false) :
    appointment_update "super" st appoint_id none none none loc none (some dc) =
      .ok { setApptFields st appoint_id none none none loc with
            apptDoctor := rewire (apptExists st appoint_id) false
              (setApptFields st appoint_id none none none loc).apptDoctor appoint_id dc } := by
  have hcb2 : (dc.toList.all Char.isWhitespace) = false := hcb
  simp only [appointment_update, require_admin_super, except_bind_ok, hfind, mergeOld,
    hval, hcb, hcb2, Bool.false_eq_true, if_false, Option.getD_some, is_blank,
    eq_self_iff_true, if_true]
  rw [apptExists_setApptFields, doctorExists_setApptFields, hmiss]
  rfl

theorem observation_update_missing_appt {st : St} {obser_id : String}
    {old : Observation} {txt : Option String} {ap : String}
    (hfind : findObservation st obser_id = some old)
    (hval : validate_date_parts old.obs_year old.obs_month old.obs_day =
      .ok (old.obs_year, old.obs_month, old.obs_day))
    (hcb : is_blank (some ap) = false)
    (hmiss : apptExists st ap = false) :
    observation_update "super" st obser_id none none none (some ap) txt none =
      .ok { setObsFields st obser_id none none none txt with
            ofAppointment := rewire (obserExists st obser_id) false
              (setObsFields st obser_id none none none txt).ofAppointment obser_id ap } := by
  simp only [observation_update, require_admin_super, except_bind_ok, hfind, mergeOld,
    hval, hcb, Bool.false_eq_true, if_false, Option.getD_some, Option.isSome_none]
  rw [obserExists_setObsFields, apptExists_setObsFields, hmiss]
  rfl

theorem observation_update_missing_blob {st : St} {obser_id : String}
    {old : Observation} {txt : Option String} {oid : Int}
    (hfind : findObservation st obser_id = some old)
    (hval : validate_date_parts old.obs_year old.obs_month old.obs_day =
      .ok (old.obs_year, old.obs_month, old.obs_day))
    (hmiss : blobExists st oid = false) :
    observation_update "super" st obser_id none none none none txt (some oid) =
      .ok { setObsFields st obser_id none none none txt with
            obsFile := rewire (obserExists st obser_id) false
              (setObsFields st obser_id none none none txt).obsFile obser_id oid } := by
  simp only [observation_update, require_admin_super, except_bind_ok, hfind, mergeOld,
    hval, is_blank, eq_self_iff_true, if_true, Option.isSome_some, Option.getD_some]
  rw [obserExists_setObsFields, blobExists_setObsFields, hmiss]
  rfl

theorem diagnosis_update_missing_obser {st : St} {diagn_id : String}
    {old : Diagnosis} {txt : Option String} {ob : String}
    (hfind : findDiagnosis st diagn_id = some old)
    (hval : validate_date_parts old.diagn_year old.diagn_month old.diagn_day =
      .ok (old.diagn_year, old.diagn_month, old.diagn_day))
    (hcb : is_blank (some ob) = false)
    (hmiss : obserExists st ob = false) :
    diagnosis_update "super" st diagn_id none none none (some ob) txt none =
      .ok { setDiagFields st diagn_id none none none txt with
            ofObservation := rewire (diagnExists st diagn_id) false
              (setDiagFields st diagn_id none none none txt).ofObservation diagn_id ob } := by
  simp only [diagnosis_update, require_admin_super, except_bind_ok, hfind, mergeOld,
    hval, hcb, Bool.false_eq_true, if_false, Option.getD_some, Option.isSome_none]
  rw [diagnExists_setDiagFields, obserExists_setDiagFields_target, hmiss]
  rfl

theorem diagnosis_update_missing_blob {st : St} {diagn_id : String}
    {old : Diagnosis} {txt : Option String} {oid : Int}
    (hfind : findDiagnosis st diagn_id = some old)
    (hval : validate_date_parts old.diagn_year old.diagn_month old.diagn_day =
      .ok (old.diagn_year, old.diagn_month, old.diagn_day))
    (hmiss : blobExists st oid = false) :
    diagnosis_update "super" st diagn_id none none none none txt (some oid) =
      .ok { setDiagFields st diagn_id none none none txt with
            diagFile := rewire (diagnExists st diagn_id) false
              (setDiagFields st diagn_id none none none txt).diagFile diagn_id oid } := by
  simp only [diagnosis_update, require_admin_super, except_bind_ok, hfind, mergeOld,
    hval, is_blank, eq_self_iff_true, if_true, Option.isSome_some, Option.getD_some]
  rw [diagnExists_setDiagFields, blobExists_setDiagFields, hmiss]
  rfl

/-! ## C9: write operations require the administrator role -/

/-- C9.  Every `*_insert` / `*_update` / `*_delete` of the entity CRUD
layer calls `require_admin` before anything else, so under a
non-administrator role it returns `PermissionError`.  In this embedding
an error result carries no post-state: the operation aborts before its
first database statement, so the caller's state is unchanged. -/
theorem C9_write_requires_admin :
    ∀ role : String, ¬ role = "super" →
    ∀ (st : St) (s1 s2 : String) (os1 os2 os3 : Option String)
      (oy om od : Option Int) (oi : Option Int),
      clinic_insert role st s1 s2 os1 = .error .permissionError
    ∧ clinic_update role st s1 os1 os2 = .error .permissionError
    ∧ clinic_delete role st s1 = .error .permissionError
    ∧ department_insert role st s1 s2 os1 = .error .permissionError
    ∧ department_update role st s1 os1 os2 = .error .permissionError
    ∧ department_delete role st s1 = .error .permissionError
    ∧ doctor_insert role st s1 s2 os1 = .error .permissionError
    ∧ doctor_update role st s1 os1 os2 = .error .permissionError
    ∧ doctor_delete role st s1 = .error .permissionError
    ∧ patient_insert role st s1 s2 os1 = .error .permissionError
    ∧ patient_update role st s1 os1 os2 = .error .permissionError
    ∧ patient_delete role st s1 = .error .permissionError
    ∧ appointment_insert role st s1 oy om od os1 os2 os3 = .error .permissionError
    ∧ appointment_update role st s1 oy om od os1 os2 os3 = .error .permissionError
    ∧ appointment_delete role st s1 = .error .permissionError
    ∧ observation_insert role st s1 oy om od os1 os2 oi = .error .permissionError
    ∧ observation_update role st s1 oy om od os1 os2 oi = .error .permissionError
    ∧ observation_delete role st s1 = .error .permissionError
    ∧ diagnosis_insert role st s1 oy om od os1 os2 oi = .error .permissionError
    ∧ diagnosis_update role st s1 oy om od os1 os2 oi = .error .permissionError
    ∧ diagnosis_delete role st s1 = .error .permissionError := by
  intro role h st s1 s2 os1 os2 os3 oy om od oi
  refine ⟨?_, ?_, ?_, ?_, ?_, ?_, ?_, ?_, ?_, ?_, ?_, ?_, ?_, ?_, ?_, ?_, ?_, ?_, ?_, ?_, ?_⟩
  all_goals exact admin_bind_not_super _ h

/-- C9 witness: the theorem applied at the `"normal"` role and the empty
state. -/
theorem C9_witness :
      clinic_insert "normal" emptySt "i" "n" none = .error .permissionError
    ∧ clinic_update "normal" emptySt "i" none none = .error .permissionError
    ∧ clinic_delete "normal" emptySt "i" = .error .permissionError
    ∧ department_insert "normal" emptySt "i" "n" none = .error .permissionError
    ∧ department_update "normal" emptySt "i" none none = .error .permissionError
    ∧ department_delete "normal" emptySt "i" = .error .permissionError
    ∧ doctor_insert "normal" emptySt "i" "n" none = .error .permissionError
    ∧ doctor_update "normal" emptySt "i" none none = .error .permissionError
    ∧ doctor_delete "normal" emptySt "i" = .error .permissionError
    ∧ patient_insert "normal" emptySt "i" "n" none = .error .permissionError
    ∧ patient_update "normal" emptySt "i" none none = .error .permissionError
    ∧ patient_delete "normal" emptySt "i" = .error .permissionError
    ∧ appointment_insert "normal" emptySt "i" none none none none none none = .error .permissionError
    ∧ appointment_update "normal" emptySt "i" none none none none none none = .error .permissionError
    ∧ appointment_delete "normal" emptySt "i" = .error .permissionError
    ∧ observation_insert "normal" emptySt "i" none none none none none none = .error .permissionError
    ∧ observation_update "normal" emptySt "i" none none none none none none = .error .permissionError
    ∧ observation_delete "normal" emptySt "i" = .error .permissionError
    ∧ diagnosis_insert "normal" emptySt "i" none none none none none none = .error .permissionError
    ∧ diagnosis_update "normal" emptySt "i" none none none none none none = .error .permissionError
    ∧ diagnosis_delete "normal" emptySt "i" = .error .permissionError :=
  C9_write_requires_admin "normal" (by decide) emptySt "i" "n" none none none none none none none

/-! ## C2: single outgoing edge after relationship rewrites -/

/-- C2 (amended).  Every relationship-setting block of the update
operations and of the appointment / observation / diagnosis inserts runs
`OPTIONAL MATCH ... DELETE r` before `MERGE`, so when it succeeds, the
named relationship argument is given, and the source node exists, the
source is left with at most one outgoing edge of that relationship type
(BELONGS_TO, WORKS_IN, ASSIGNED_TO, PATIENT, DOCTOR, OF_APPOINTMENT,
OF_OBSERVATION, FILE).  This does NOT hold for `department_insert`,
`doctor_insert` and `patient_insert`, which merge the new edge without
deleting a prior one (see the counterexample); the claim's "corresponding
inserts" clause is restricted accordingly. -/
theorem C2_single_edge_after_rewrite :
    (∀ (role : String) (st : St) (dept_id : String) (dn cli : Option String) (st' : St),
      department_update role st dept_id dn cli = .ok st' →
      deptExists st dept_id = true → is_blank cli = false →
      countOut st'.belongsTo dept_id ≤ 1)
  ∧ (∀ (role : String) (st : St) (doctor_id : String) (dep nm : Option String) (st' : St),
      doctor_update role st doctor_id dep nm = .ok st' →
      doctorExists st doctor_id = true → is_blank dep = false →
      countOut st'.worksIn doctor_id ≤ 1)
  ∧ (∀ (role : String) (st : St) (patient_id : String) (doc nm : Option String) (st' : St),
      patient_update role st patient_id doc nm = .ok st' →
      patientExists st patient_id = true → is_blank doc = false →
      countOut st'.assignedTo patient_id ≤ 1)
  ∧ (∀ (role : String) (st : St) (appoint_id : String) (y m d : Option Int)
      (loc pat doc : Option String) (st' : St),
      appointment_update role st appoint_id y m d loc pat doc = .ok st' →
      (is_blank pat = false → countOut st'.apptPatient appoint_id ≤ 1)
      ∧ (is_blank doc = false → countOut st'.apptDoctor appoint_id ≤ 1))
  ∧ (∀ (role : String) (st : St) (obser_id : String) (y m d : Option Int)
      (ap txt : Option String) (oid : Option Int) (st' : St),
      observation_update role st obser_id y m d ap txt oid = .ok st' →
      (is_blank ap = false → countOut st'.ofAppointment obser_id ≤ 1)
      ∧ (oid.isSome = true → countOut st'.obsFile obser_id ≤ 1))
  ∧ (∀ (role : String) (st : St) (diagn_id : String) (y m d : Option Int)
      (ob txt : Option String) (oid : Option Int) (st' : St),
      diagnosis_update role st diagn_id y m d ob txt oid = .ok st' →
      (is_blank ob = false → countOut st'.ofObservation diagn_id ≤ 1)
      ∧ (oid.isSome = true → countOut st'.diagFile diagn_id ≤ 1))
  ∧ (∀ (role : String) (st : St) (appoint_id : String) (y m d : Option Int)
      (loc pat doc : Option String) (st' : St),
      appointment_insert role st appoint_id y m d loc pat doc = .ok st' →
      (is_blank pat = false → countOut st'.apptPatient appoint_id ≤ 1)
      ∧ (is_blank doc = false → countOut st'.apptDoctor appoint_id ≤ 1))
  ∧ (∀ (role : String) (st : St) (obser_id : String) (y m d : Option Int)
      (ap txt : Option String) (oid : Option Int) (st' : St),
      observation_insert role st obser_id y m d ap txt oid = .ok st' →
      (is_blank ap = false → countOut st'.ofAppointment obser_id ≤ 1)
      ∧ (oid.isSome = true → countOut st'.obsFile obser_id ≤ 1))
  ∧ (∀ (role : String) (st : St) (diagn_id : String) (y m d : Option Int)
      (ob txt : Option String) (oid : Option Int) (st' : St),
      diagnosis_insert role st diagn_id y m d ob txt oid = .ok st' →
      (is_blank ob = false → countOut st'.ofObservation diagn_id ≤ 1)
      ∧ (oid.isSome = true → countOut st'.diagFile diagn_id ≤ 1)) := by
  refine ⟨?_, ?_, ?_, ?_, ?_, ?_, ?_, ?_, ?_⟩
  · intro role st dept_id dn cli st' hok hsrc hcli
    exact department_update_edge_bound hok hsrc hcli
  · intro role st doctor_id dep nm st' hok hsrc hdep
    exact doctor_update_edge_bound hok hsrc hdep
  · intro role st patient_id doc nm st' hok hsrc hdoc
    exact patient_update_edge_bound hok hsrc hdoc
  · intro role st appoint_id y m d loc pat doc st' hok
    exact ⟨fun hp => appointment_update_patient_edge_bound hok hp,
      fun hd => appointment_update_doctor_edge_bound hok hd⟩
  · intro role st obser_id y m d ap txt oid st' hok
    exact ⟨fun hp => observation_update_appt_edge_bound hok hp,
      fun hd => observation_update_file_edge_bound hok hd⟩
  · intro role st diagn_id y m d ob txt oid st' hok
    exact ⟨fun hp => diagnosis_update_obser_edge_bound hok hp,
      fun hd => diagnosis_update_file_edge_bound hok hd⟩
  · intro role st appoint_id y m d loc pat doc st' hok
    exact ⟨fun hp => appointment_insert_patient_edge_bound hok hp,
      fun hd => appointment_insert_doctor_edge_bound hok hd⟩
  · intro role st obser_id y m d ap txt oid st' hok
    exact ⟨fun hp => observation_insert_appt_edge_bound hok hp,
      fun hd => observation_insert_file_edge_bound hok hd⟩
  · intro role st diagn_id y m d ob txt oid st' hok
    exact ⟨fun hp => diagnosis_insert_obser_edge_bound hok hp,
      fun hd => diagnosis_insert_file_edge_bound hok hd⟩

theorem findAppointment_set_apptPatient (st : St) (E : List (String × String)) (id : String) :
    findAppointment { st with apptPatient := E } id = findAppointment st id := rfl

theorem findAppointment_set_apptDoctor (st : St) (E : List (String × String)) (id : String) :
    findAppointment { st with apptDoctor := E } id = findAppointment st id := rfl

theorem findObservation_set_ofAppointment (st : St) (E : List (String × String)) (id : String) :
    findObservation { st with ofAppointment := E } id = findObservation st id := rfl

theorem findObservation_set_obsFile (st : St) (E : List (String × Int)) (id : String) :
    findObservation { st with obsFile := E } id = findObservation st id := rfl

theorem findDiagnosis_set_ofObservation (st : St) (E : List (String × String)) (id : String) :
    findDiagnosis { st with ofObservation := E } id = findDiagnosis st id := rfl

theorem findDiagnosis_set_diagFile (st : St) (E : List (String × Int)) (id : String) :
    findDiagnosis { st with diagFile := E } id = findDiagnosis st id := rfl

theorem clinic_update_frame {role : String} {st : St} {cli_id : String}
    {nm addr : Option String} {st' : St}
    (hok : clinic_update role st cli_id nm addr = .ok st') :
    (is_blank nm = true →
      (findClinic st' cli_id).map Clinic.cli_name = (findClinic st cli_id).map Clinic.cli_name)
    ∧ (is_blank addr = true →
      (findClinic st' cli_id).map Clinic.address = (findClinic st cli_id).map Clinic.address)
    ∧ st'.belongsTo = st.belongsTo := by
  have h := admin_bind_ok hok
  split at h
  · simp only [pure, Except.pure, Except.ok.injEq] at h
    subst h
    exact ⟨fun _ => rfl, fun _ => rfl, rfl⟩
  · simp only [pure, Except.pure, Except.ok.injEq] at h
    subst h
    refine ⟨?_, ?_, rfl⟩
    · intro hb
      rw [findClinic_setClinicFields]
      cases findClinic st cli_id with
      | none => rfl
      | some c => simp [clinicUpd, hb]
    · intro hb
      rw [findClinic_setClinicFields]
      cases findClinic st cli_id with
      | none => rfl
      | some c => simp [clinicUpd, hb]

theorem department_update_frame {role : String} {st : St} {dept_id : String}
    {dn cli : Option String} {st' : St}
    (hok : department_update role st dept_id dn cli = .ok st') :
    (is_blank dn = true → findDepartment st' dept_id = findDepartment st dept_id)
    ∧ (is_blank cli = true → st'.belongsTo = st.belongsTo) := by
  have h := admin_bind_ok hok
  split at h
  · simp only [pure, Except.pure, Except.ok.injEq] at h
    subst h
    constructor
    · intro hb
      have he : setDeptName st dept_id dn = st := by
        unfold setDeptName
        rw [if_pos hb]
      rw [he]
    · intro _
      exact setDeptName_belongsTo st dept_id dn
  · rename_i hc
    simp only [pure, Except.pure, Except.ok.injEq] at h
    subst h
    constructor
    · intro hb
      have he : setDeptName st dept_id dn = st := by
        unfold setDeptName
        rw [if_pos hb]
      rw [he]
      rfl
    · intro hcb
      exact absurd hcb hc

theorem doctor_update_frame {role : String} {st : St} {did : String}
    {dep nm : Option String} {st' : St}
    (hok : doctor_update role st did dep nm = .ok st') :
    (is_blank nm = true → findDoctor st' did = findDoctor st did)
    ∧ (is_blank dep = true → st'.worksIn = st.worksIn) := by
  have h := admin_bind_ok hok
  split at h
  · simp only [pure, Except.pure, Except.ok.injEq] at h
    subst h
    constructor
    · intro hb
      have he : setDoctorName st did nm = st := by
        unfold setDoctorName
        rw [if_pos hb]
      rw [he]
    · intro _
      exact setDoctorName_worksIn st did nm
  · rename_i hc
    simp only [pure, Except.pure, Except.ok.injEq] at h
    subst h
    constructor
    · intro hb
      have he : setDoctorName st did nm = st := by
        unfold setDoctorName
        rw [if_pos hb]
      rw [he]
      rfl
    · intro hcb
      exact absurd hcb hc

theorem patient_update_frame {role : String} {st : St} {pid : String}
    {doc nm : Option String} {st' : St}
    (hok : patient_update role st pid doc nm = .ok st') :
    (is_blank nm = true → findPatient st' pid = findPatient st pid)
    ∧ (is_blank doc = true → st'.assignedTo = st.assignedTo) := by
  have h := admin_bind_ok hok
  split at h
  · simp only [pure, Except.pure, Except.ok.injEq] at h
    subst h
    constructor
    · intro hb
      have he : setPatientName st pid nm = st := by
        unfold setPatientName
        rw [if_pos hb]
      rw [he]
    · intro _
      exact setPatientName_assignedTo st pid nm
  · rename_i hc
    simp only [pure, Except.pure, Except.ok.injEq] at h
    subst h
    constructor
    · intro hb
      have he : setPatientName st pid nm = st := by
        unfold setPatientName
        rw [if_pos hb]
      rw [he]
      rfl
    · intro hcb
      exact absurd hcb hc

theorem appointment_update_projs {role : String} {st : St} {appoint_id : String}
    {y m d : Option Int} {loc pat doc : Option String} {st' : St}
    (hok : appointment_update role st appoint_id y m d loc pat doc = .ok st') :
    findAppointment st' appoint_id = (findAppointment st appoint_id).map (apptUpd y m d loc)
    ∧ (is_blank pat = true → st'.apptPatient = st.apptPatient)
    ∧ (is_blank doc = true → st'.apptDoctor = st.apptDoctor) := by
  have h := admin_bind_ok hok
  split at h
  · exact absurd h (by simp)
  · rename_i old hfind
    split at h
    · exact absurd h (by simp)
    · simp only [pure, Except.pure, Except.ok.injEq] at h
      subst h
      refine ⟨?_, ?_, ?_⟩
      · split
        · split
          · exact findAppointment_setApptFields st appoint_id y m d loc
          · rw [findAppointment_set_apptPatient]
            exact findAppointment_setApptFields st appoint_id y m d loc
        · rw [findAppointment_set_apptDoctor]
          split
          · exact findAppointment_setApptFields st appoint_id y m d loc
          · rw [findAppointment_set_apptPatient]
            exact findAppointment_setApptFields st appoint_id y m d loc
      · intro hpb
        split
        · rfl
        · rfl
      · intro hdb
        split
        · split <;> rfl
        · rename_i hcond
          exact absurd hdb hcond

theorem observation_update_projs {role : String} {st : St} {obser_id : String}
    {y m d : Option Int} {ap txt : Option String} {oid : Option Int} {st' : St}
    (hok : observation_update role st obser_id y m d ap txt oid = .ok st') :
    findObservation st' obser_id = (findObservation st obser_id).map (obsUpd y m d txt)
    ∧ (is_blank ap = true → st'.ofAppointment = st.ofAppointment)
    ∧ (oid = none → st'.obsFile = st.obsFile) := by
  have h := admin_bind_ok hok
  split at h
  · exact absurd h (by simp)
  · rename_i old hfind
    split at h
    · exact absurd h (by simp)
    · simp only [pure, Except.pure, Except.ok.injEq] at h
      subst h
      refine ⟨?_, ?_, ?_⟩
      · split
        · rw [findObservation_set_obsFile]
          split
          · exact findObservation_setObsFields st obser_id y m d txt
          · rw [findObservation_set_ofAppointment]
            exact findObservation_setObsFields st obser_id y m d txt
        · split
          · exact findObservation_setObsFields st obser_id y m d txt
          · rw [findObservation_set_ofAppointment]
            exact findObservation_setObsFields st obser_id y m d txt
      · intro hpb
        split
        · rfl
        · rfl
      · intro hob
        subst hob
        split
        · rename_i hcond
          exact absurd hcond (by simp)
        · split <;> rfl

theorem diagnosis_update_projs {role : String} {st : St} {diagn_id : String}
    {y m d : Option Int} {ob txt : Option String} {oid : Option Int} {st' : St}
    (hok : diagnosis_update role st diagn_id y m d ob txt oid = .ok st') :
    findDiagnosis st' diagn_id = (findDiagnosis st diagn_id).map (diagUpd y m d txt)
    ∧ (is_blank ob = true → st'.ofObservation = st.ofObservation)
    ∧ (oid = none → st'.diagFile = st.diagFile) := by
  have h := admin_bind_ok hok
  split at h
  · exact absurd h (by simp)
  · rename_i old hfind
    split at h
    · exact absurd h (by simp)
    · simp only [pure, Except.pure, Except.ok.injEq] at h
      subst h
      refine ⟨?_, ?_, ?_⟩
      · split
        · rw [findDiagnosis_set_diagFile]
          split
          · exact findDiagnosis_setDiagFields st diagn_id y m d txt
          · rw [findDiagnosis_set_ofObservation]
            exact findDiagnosis_setDiagFields st diagn_id y m d txt
        · split
          · exact findDiagnosis_setDiagFields st diagn_id y m d txt
          · rw [findDiagnosis_set_ofObservation]
            exact findDiagnosis_setDiagFields st diagn_id y m d txt
      · intro hpb
        split
        · rfl
        · rfl
      · intro hob
        subst hob
        split
        · rename_i hcond
          exact absurd hcond (by simp)
        · split <;> rfl

/-! ## C7: unspecified update arguments leave fields unchanged -/

/-- C7 (amended).  In every entity update an unspecified argument leaves
the corresponding field and relationship unchanged — with one exception
forced by the code: the `comment_text` argument of `observation_update`
and `diagnosis_update` is guarded by `is not None`, so only `None` means
"unchanged" there; a blank string overwrites the stored comment (see the
counterexample).  All other string arguments treat both `None` and blank
strings as "unchanged", and the date arguments treat `None` (what a
blank string is parsed to) as "unchanged". -/
theorem C7_blank_update_frame :
    (∀ (role : String) (st : St) (cli_id : String) (nm addr : Option String) (st' : St),
      clinic_update role st cli_id nm addr = .ok st' →
      (is_blank nm = true →
        (findClinic st' cli_id).map Clinic.cli_name = (findClinic st cli_id).map Clinic.cli_name)
      ∧ (is_blank addr = true →
        (findClinic st' cli_id).map Clinic.address = (findClinic st cli_id).map Clinic.address)
      ∧ st'.belongsTo = st.belongsTo)
  ∧ (∀ (role : String) (st : St) (dept_id : String) (dn cli : Option String) (st' : St),
      department_update role st dept_id dn cli = .ok st' →
      (is_blank dn = true → findDepartment st' dept_id = findDepartment st dept_id)
      ∧ (is_blank cli = true → st'.belongsTo = st.belongsTo))
  ∧ (∀ (role : String) (st : St) (did : String) (dep nm : Option String) (st' : St),
      doctor_update role st did dep nm = .ok st' →
      (is_blank nm = true → findDoctor st' did = findDoctor st did)
      ∧ (is_blank dep = true → st'.worksIn = st.worksIn))
  ∧ (∀ (role : String) (st : St) (pid : String) (doc nm : Option String) (st' : St),
      patient_update role st pid doc nm = .ok st' →
      (is_blank nm = true → findPatient st' pid = findPatient st pid)
      ∧ (is_blank doc = true → st'.assignedTo = st.assignedTo))
  ∧ (∀ (role : String) (st : St) (appoint_id : String) (y m d : Option Int)
      (loc pat doc : Option String) (st' : St),
      appointment_update role st appoint_id y m d loc pat doc = .ok st' →
      (y = none → (findAppointment st' appoint_id).map Appointment.appoint_year =
        (findAppointment st appoint_id).map Appointment.appoint_year)
      ∧ (m = none → (findAppointment st' appoint_id).map Appointment.appoint_month =
        (findAppointment st appoint_id).map Appointment.appoint_month)
      ∧ (d = none → (findAppointment st' appoint_id).map Appointment.appoint_day =
        (findAppointment st appoint_id).map Appointment.appoint_day)
      ∧ (is_blank loc = true → (findAppointment st' appoint_id).map Appointment.appoint_location =
        (findAppointment st appoint_id).map Appointment.appoint_location)
      ∧ (is_blank pat = true → st'.apptPatient = st.apptPatient)
      ∧ (is_blank doc = true → st'.apptDoctor = st.apptDoctor))
  ∧ (∀ (role : String) (st : St) (obser_id : String) (y m d : Option Int)
      (ap txt : Option String) (oid : Option Int) (st' : St),
      observation_update role st obser_id y m d ap txt oid = .ok st' →
      (y = none → (findObservation st' obser_id).map Observation.obs_year =
        (findObservation st obser_id).map Observation.obs_year)
      ∧ (m = none → (findObservation st' obser_id).map Observation.obs_month =
        (findObservation st obser_id).map Observation.obs_month)
      ∧ (d = none → (findObservation st' obser_id).map Observation.obs_day =
        (findObservation st obser_id).map Observation.obs_day)
      ∧ (txt = none → (findObservation st' obser_id).map Observation.obs_comment_text =
        (findObservation st obser_id).map Observation.obs_comment_text)
      ∧ (is_blank ap = true → st'.ofAppointment = st.ofAppointment)
      ∧ (oid = none → st'.obsFile = st.obsFile))
  ∧ (∀ (role : String) (st : St) (diagn_id : String) (y m d : Option Int)
      (ob txt : Option String) (oid : Option Int) (st' : St),
      diagnosis_update role st diagn_id y m d ob txt oid = .ok st' →
      (y = none → (findDiagnosis st' diagn_id).map Diagnosis.diagn_year =
        (findDiagnosis st diagn_id).map Diagnosis.diagn_year)
      ∧ (m = none → (findDiagnosis st' diagn_id).map Diagnosis.diagn_month =
        (findDiagnosis st diagn_id).map Diagnosis.diagn_month)
      ∧ (d = none → (findDiagnosis st' diagn_id).map Diagnosis.diagn_day =
        (findDiagnosis st diagn_id).map Diagnosis.diagn_day)
      ∧ (txt = none → (findDiagnosis st' diagn_id).map Diagnosis.diagn_comment_text =
        (findDiagnosis st diagn_id).map Diagnosis.diagn_comment_text)
      ∧ (is_blank ob = true → st'.ofObservation = st.ofObservation)
      ∧ (oid = none → st'.diagFile = st.diagFile)) := by
  refine ⟨?_, ?_, ?_, ?_, ?_, ?_, ?_⟩
  · intro role st cli_id nm addr st' hok
    exact clinic_update_frame hok
  · intro role st dept_id dn cli st' hok
    exact department_update_frame hok
  · intro role st did dep nm st' hok
    exact doctor_update_frame hok
  · intro role st pid doc nm st' hok
    exact patient_update_frame hok
  · intro role st appoint_id y m d loc pat doc st' hok
    obtain ⟨hchar, hp, hd2⟩ := appointment_update_projs hok
    refine ⟨?_, ?_, ?_, ?_, hp, hd2⟩
    · intro hy
      subst hy
      rw [hchar]
      cases findAppointment st appoint_id with
      | none => rfl
      | some a => simp [apptUpd]
    · intro hm
      subst hm
      rw [hchar]
      cases findAppointment st appoint_id with
      | none => rfl
      | some a => simp [apptUpd]
    · intro hd
      subst hd
      rw [hchar]
      cases findAppointment st appoint_id with
      | none => rfl
      | some a => simp [apptUpd]
    · intro hl
      rw [hchar]
      cases findAppointment st appoint_id with
      | none => rfl
      | some a => simp [apptUpd, hl]
  · intro role st obser_id y m d ap txt oid st' hok
    obtain ⟨hchar, hp, hd2⟩ := observation_update_projs hok
    refine ⟨?_, ?_, ?_, ?_, hp, hd2⟩
    · intro hy
      subst hy
      rw [hchar]
      cases findObservation st obser_id with
      | none => rfl
      | some a => simp [obsUpd]
    · intro hm
      subst hm
      rw [hchar]
      cases findObservation st obser_id with
      | none => rfl
      | some a => simp [obsUpd]
    · intro hd
      subst hd
      rw [hchar]
      cases findObservation st obser_id with
      | none => rfl
      | some a => simp [obsUpd]
    · intro ht
      subst ht
      rw [hchar]
      cases findObservation st obser_id with
      | none => rfl
      | some a => simp [obsUpd]
  · intro role st diagn_id y m d ob txt oid st' hok
    obtain ⟨hchar, hp, hd2⟩ := diagnosis_update_projs hok
    refine ⟨?_, ?_, ?_, ?_, hp, hd2⟩
    · intro hy
      subst hy
      rw [hchar]
      cases findDiagnosis st diagn_id with
      | none => rfl
      | some a => simp [diagUpd]
    · intro hm
      subst hm
      rw [hchar]
      cases findDiagnosis st diagn_id with
      | none => rfl
      | some a => simp [diagUpd]
    · intro hd
      subst hd
      rw [hchar]
      cases findDiagnosis st diagn_id with
      | none => rfl
      | some a => simp [diagUpd]
    · intro ht
      subst ht
      rw [hchar]
      cases findDiagnosis st diagn_id with
      | none => rfl
      | some a => simp [diagUpd]

/-- C7 counterexample to the claim as stated: the empty string is a
blank string, yet `observation_update` with `comment_text = ""`
overwrites the stored comment "hello" with "" instead of keeping it. -/
theorem C7_counterexample :
    is_blank (some "") = true
  ∧ (observation_update "super" stC7 "o1" none none none none (some "") none).map
      (fun s => (findObservation s "o1").map Observation.obs_comment_text) =
      .ok (some (some ""))
  ∧ (findObservation stC7 "o1").map Observation.obs_comment_text = some (some "hello") := by
  refine ⟨by decide, by decide, by decide⟩

/-- C7 witness: the amended theorem applied at a concrete
`clinic_update` whose name argument is omitted. -/
theorem C7_witness :
    (findClinic stC7w' "c1").map Clinic.cli_name = (findClinic stC7w "c1").map Clinic.cli_name :=
  (C7_blank_update_frame.1 "super" stC7w "c1" none (some "Addr") stC7w' (by decide)).1 (by decide)

/-! ## C6: writes that name a missing related entity -/

/-- C6.  For every insert or update that names a related entity, when
the named target does not exist the operation still succeeds, its own
entity write (node upsert / field `SET`) takes effect, and no
relationship edge is created: for the simple inserts the edge list is
untouched, and for the delete-then-merge blocks the `rewire` runs with
target `false`, which at most deletes (the final conjunct: every edge of
`rewire _ false` was already present).  No error is raised in any
case. -/
theorem C6_missing_target_silent :
    (∀ (st : St) (dept_id nm cli : String),
      is_blank (some cli) = false → clinicExists st cli = false →
      department_insert "super" st dept_id nm (some cli) = .ok (upsertDepartment st dept_id nm))
  ∧ (∀ (st : St) (did nm dep : String),
      is_blank (some dep) = false → deptExists st dep = false →
      doctor_insert "super" st did nm (some dep) = .ok (upsertDoctor st did nm))
  ∧ (∀ (st : St) (pid nm did : String),
      is_blank (some did) = false → doctorExists st did = false →
      patient_insert "super" st pid nm (some did) = .ok (upsertPatient st pid nm))
  ∧ (∀ (st : St) (dept_id : String) (dn : Option String) (cli : String),
      is_blank (some cli) = false → clinicExists st cli = false →
      department_update "super" st dept_id dn (some cli) =
        .ok { setDeptName st dept_id dn with
              belongsTo := rewire (deptExists st dept_id) false
                (setDeptName st dept_id dn).belongsTo dept_id cli })
  ∧ (∀ (st : St) (did : String) (nm : Option String) (dep : String),
      is_blank (some dep) = false → deptExists st dep = false →
      doctor_update "super" st did (some dep) nm =
        .ok { setDoctorName st did nm with
              worksIn := rewire (doctorExists st did) false
                (setDoctorName st did nm).worksIn did dep })
  ∧ (∀ (st : St) (pid : String) (nm : Option String) (did : String),
      is_blank (some did) = false → doctorExists st did = false →
      patient_update "super" st pid (some did) nm =
        .ok { setPatientName st pid nm with
              assignedTo := rewire (patientExists st pid) false
                (setPatientName st pid nm).assignedTo pid did })
  ∧ (∀ (st : St) (appoint_id : String) (y m d : Option Int) (loc : Option String) (p : String),
      validate_date_parts y m d = .ok (y, m, d) →
      is_blank (some p) = false → patientExists st p = false →
      appointment_insert "super" st appoint_id y m d loc (some p) none =
        .ok { upsertAppointment st appoint_id y m d (orNone loc) with
              apptPatient := rewire true false
                (upsertAppointment st appoint_id y m d (orNone loc)).apptPatient appoint_id p })
  ∧ (∀ (st : St) (appoint_id : String) (y m d : Option Int) (loc : Option String) (dc : String),
      validate_date_parts y m d = .ok (y, m, d) →
      is_blank (some dc) = false → doctorExists st dc = false →
      appointment_insert "super" st appoint_id y m d loc none (some dc) =
        .ok { upsertAppointment st appoint_id y m d (orNone loc) with
              apptDoctor := rewire true false
                (upsertAppointment st appoint_id y m d (orNone loc)).apptDoctor appoint_id dc })
  ∧ (∀ (st : St) (obser_id : String) (y m d : Option Int) (txt : Option String) (ap : String),
      validate_date_parts y m d = .ok (y, m, d) →
      is_blank (some ap) = false → apptExists st ap = false →
      observation_insert "super" st obser_id y m d (some ap) txt none =
        .ok { upsertObservation st obser_id y m d (orNone txt) with
              ofAppointment := rewire true false
                (upsertObservation st obser_id y m d (orNone txt)).ofAppointment obser_id ap })
  ∧ (∀ (st : St) (obser_id : String) (y m d : Option Int) (txt : Option String) (oid : Int),
      validate_date_parts y m d = .ok (y, m, d) →
      blobExists st oid = false →
      observation_insert "super" st obser_id y m d none txt (some oid) =
        .ok { upsertObservation st obser_id y m d (orNone txt) with
              obsFile := rewire true false
                (upsertObservation st obser_id y m d (orNone txt)).obsFile obser_id oid })
  ∧ (∀ (st : St) (diagn_id : String) (y m d : Option Int) (txt : Option String) (ob : String),
      validate_date_parts y m d = .ok (y, m, d) →
      is_blank (some ob) = false → obserExists st ob = false →
      diagnosis_insert "super" st diagn_id y m d (some ob) txt none =
        .ok { upsertDiagnosis st diagn_id y m d (orNone txt) with
              ofObservation := rewire true false
                (upsertDiagnosis st diagn_id y m d (orNone txt)).ofObservation diagn_id ob })
  ∧ (∀ (st : St) (diagn_id : String) (y m d : Option Int) (txt : Option String) (oid : Int),
      validate_date_parts y m d = .ok (y, m, d) →
      blobExists st oid = false →
      diagnosis_insert "super" st diagn_id y m d none txt (some oid) =
        .ok { upsertDiagnosis st diagn_id y m d (orNone txt) with
              diagFile := rewire true false
                (upsertDiagnosis st diagn_id y m d (orNone txt)).diagFile diagn_id oid })
  ∧ (∀ (st : St) (appoint_id : String) (old : Appointment) (loc : Option String) (p : String),
      findAppointment st appoint_id = some old →
      validate_date_parts old.appoint_year old.appoint_month old.appoint_day =
        .ok (old.appoint_year, old.appoint_month, old.appoint_day) →
      is_blank (some p) = false → patientExists st p = false →
      appointment_update "super" st appoint_id none none none loc (some p) none =
        .ok { setApptFields st appoint_id none none none loc with
              apptPatient := rewire (apptExists st appoint_id) false
                (setApptFields st appoint_id none none none loc).apptPatient appoint_id p })
  ∧ (∀ (st : St) (appoint_id : String) (old : Appointment) (loc : Option String) (dc : String),
      findAppointment st appoint_id = some old →
      validate_date_parts old.appoint_year old.appoint_month old.appoint_day =
        .ok (old.appoint_year, old.appoint_month, old.appoint_day) →
      is_blank (some dc) = false → doctorExists st dc = false →
      appointment_update "super" st appoint_id none none none loc none (some dc) =
        .ok { setApptFields st appoint_id none none none loc with
              apptDoctor := rewire (apptExists st appoint_id) false
                (setApptFields st appoint_id none none none loc).apptDoctor appoint_id dc })
  ∧ (∀ (st : St) (obser_id : String) (old : Observation) (txt : Option String) (ap : String),
      findObservation st obser_id = some old →
      validate_date_parts old.obs_year old.obs_month old.obs_day =
        .ok (old.obs_year, old.obs_month, old.obs_day) →
      is_blank (some ap) = false → apptExists st ap = false →
      observation_update "super" st obser_id none none none (some ap) txt none =
        .ok { setObsFields st obser_id none none none txt with
              ofAppointment := rewire (obserExists st obser_id) false
                (setObsFields st obser_id none none none txt).ofAppointment obser_id ap })
  ∧ (∀ (st : St) (obser_id : String) (old : Observation) (txt : Option String) (oid : Int),
      findObservation st obser_id = some old →
      validate_date_parts old.obs_year old.obs_month old.obs_day =
        .ok (old.obs_year, old.obs_month, old.obs_day) →
      blobExists st oid = false →
      observation_update "super" st obser_id none none none none txt (some oid) =
        .ok { setObsFields st obser_id none none none txt with
              obsFile := rewire (obserExists st obser_id) false
                (setObsFields st obser_id none none none txt).obsFile obser_id oid })
  ∧ (∀ (st : St) (diagn_id : String) (old : Diagnosis) (txt : Option String) (ob : String),
      findDiagnosis st diagn_id = some old →
      validate_date_parts old.diagn_year old.diagn_month old.diagn_day =
        .ok (old.diagn_year, old.diagn_month, old.diagn_day) →
      is_blank (some ob) = false → obserExists st ob = false →
      diagnosis_update "super" st diagn_id none none none (some ob) txt none =
        .ok { setDiagFields st diagn_id none none none txt with
              ofObservation := rewire (diagnExists st diagn_id) false
                (setDiagFields st diagn_id none none none txt).ofObservation diagn_id ob })
  ∧ (∀ (st : St) (diagn_id : String) (old : Diagnosis) (txt : Option String) (oid : Int),
      findDiagnosis st diagn_id = some old →
      validate_date_parts old.diagn_year old.diagn_month old.diagn_day =
        .ok (old.diagn_year, old.diagn_month, old.diagn_day) →
      blobExists st oid = false →
      diagnosis_update "super" st diagn_id none none none none txt (some oid) =
        .ok { setDiagFields st diagn_id none none none txt with
              diagFile := rewire (diagnExists st diagn_id) false
                (setDiagFields st diagn_id none none none txt).diagFile diagn_id oid })
  ∧ (∀ (s : Bool) (es : List (String × String)) (a b : String) (e : String × String),
      e ∈ rewire s false es a b → e ∈ es) := by
  refine ⟨?_, ?_, ?_, ?_, ?_, ?_, ?_, ?_, ?_, ?_, ?_, ?_, ?_, ?_, ?_, ?_, ?_, ?_, ?_⟩
  · intro st dept_id nm cli h1 h2
    exact department_insert_missing_clinic h1 h2
  · intro st did nm dep h1 h2
    exact doctor_insert_missing_dept h1 h2
  · intro st pid nm did h1 h2
    exact patient_insert_missing_doctor h1 h2
  · intro st dept_id dn cli h1 h2
    exact department_update_missing_clinic h1 h2
  · intro st did nm dep h1 h2
    exact doctor_update_missing_dept h1 h2
  · intro st pid nm did h1 h2
    exact patient_update_missing_doctor h1 h2
  · intro st appoint_id y m d loc p h0 h1 h2
    exact appointment_insert_missing_patient h0 h1 h2
  · intro st appoint_id y m d loc dc h0 h1 h2
    exact appointment_insert_missing_doctor h0 h1 h2
  · intro st obser_id y m d txt ap h0 h1 h2
    exact observation_insert_missing_appt h0 h1 h2
  · intro st obser_id y m d txt oid h0 h2
    exact observation_insert_missing_blob h0 h2
  · intro st diagn_id y m d txt ob h0 h1 h2
    exact diagnosis_insert_missing_obser h0 h1 h2
  · intro st diagn_id y m d txt oid h0 h2
    exact diagnosis_insert_missing_blob h0 h2
  · intro st appoint_id old loc p hf h0 h1 h2
    exact appointment_update_missing_patient hf h0 h1 h2
  · intro st appoint_id old loc dc hf h0 h1 h2
    exact appointment_update_missing_doctor hf h0 h1 h2
  · intro st obser_id old txt ap hf h0 h1 h2
    exact observation_update_missing_appt hf h0 h1 h2
  · intro st obser_id old txt oid hf h0 h2
    exact observation_update_missing_blob hf h0 h2
  · intro st diagn_id old txt ob hf h0 h1 h2
    exact diagnosis_update_missing_obser hf h0 h1 h2
  · intro st diagn_id old txt oid hf h0 h2
    exact diagnosis_update_missing_blob hf h0 h2
  · intro s es a b e he
    exact rewire_subset s es a b e he

/-- C6 witness: two conjuncts applied at concrete inputs — a
`department_insert` naming a clinic that does not exist, and an
`appointment_insert` naming a patient that does not exist. -/
theorem C6_witness :
    department_insert "super" emptySt "x" "N" (some "c9") = .ok (upsertDepartment emptySt "x" "N")
  ∧ appointment_insert "super" emptySt "a1" none none none none (some "p9") none =
      .ok { upsertAppointment emptySt "a1" none none none none with
            apptPatient := rewire true false
              (upsertAppointment emptySt "a1" none none none none).apptPatient "a1" "p9" } :=
  ⟨C6_missing_target_silent.1 emptySt "x" "N" "c9" (by decide) (by decide),
   C6_missing_target_silent.2.2.2.2.2.2.1 emptySt "a1" none none none none "p9"
     (by decide) (by decide) (by decide)⟩

/-- C2 counterexample to the claim as stated: `doctor_insert` on the
already-existing doctor d1, naming department dep2, merges a second
`WORKS_IN` edge without deleting the edge to dep1 — d1 ends with two
outgoing `WORKS_IN` edges. -/
theorem C2_counterexample :
    (doctor_insert "super" stC2 "d1" "Ann" (some "dep2")).map
      (fun s => countOut s.worksIn "d1") = .ok 2 := by
  decide

/-- C2 witness: the amended theorem applied at a concrete successful
`department_update`. -/
theorem C2_witness : countOut stC2w'.belongsTo "dep1" ≤ 1 :=
  C2_single_edge_after_rewrite.1 "super" stC2w "dep1" none (some "c1") stC2w'
    (by decide) (by decide) (by decide)

/-! ## C1: recipient lists derived from the login identity -/

/-- C1.  `list_recipients_for_user` maps a login to its counterpart
list: an account whose resolved person id names a `Doctor` under the
`"super"` role gets that doctor's assigned patients as id/name pairs; a
`Patient` under the `"normal"` role gets the patient's doctors; every
other combination gets the empty list — a total function, so the call
cannot fail.  (`get_patients_for_doctor` / `get_doctors_for_patient`
are modelled from the spec; see their doc comments.) -/
theorem C1_list_recipients :
    ∀ (st : St) (login role : String),
      (role = "super" → is_doctor_person st (resolved_person_id st login) = true →
        list_recipients_for_user st login role =
          (get_patients_for_doctor st (resolved_person_id st login)).map
            (fun pr => ⟨pr.1, pr.2⟩))
    ∧ (role = "normal" → is_patient_person st (resolved_person_id st login) = true →
        list_recipients_for_user st login role =
          (get_doctors_for_patient st (resolved_person_id st login)).map
            (fun pr => ⟨pr.1, pr.2⟩))
    ∧ (¬(role = "super" ∧ is_doctor_person st (resolved_person_id st login) = true) →
       ¬(role = "normal" ∧ is_patient_person st (resolved_person_id st login) = true) →
        list_recipients_for_user st login role = []) := by
  intro st login role
  refine ⟨?_, ?_, ?_⟩
  · rintro rfl hdoc
    simp [list_recipients_for_user, normalize_identity, hdoc]
  · rintro rfl hpat
    simp [list_recipients_for_user, normalize_identity, hpat]
  · intro h1 h2
    unfold list_recipients_for_user normalize_identity
    by_cases hs : role = "super"
    · subst hs
      have hdoc : is_doctor_person st (resolved_person_id st login) = false := by
        cases hval : is_doctor_person st (resolved_person_id st login) with
        | true => exact absurd ⟨rfl, hval⟩ h1
        | false => rfl
      simp [hdoc]
    · by_cases hn : role = "normal"
      · subst hn
        have hpat : is_patient_person st (resolved_person_id st login) = false := by
          cases hval : is_patient_person st (resolved_person_id st login) with
          | true => exact absurd ⟨rfl, hval⟩ h2
          | false => rfl
        have hbs : (("normal" : String) == "super") = false := by decide
        simp [hpat, hbs]
      · have hbs : (role == "super") = false := by simp [hs]
        have hbn : (role == "normal") = false := by simp [hn]
        simp [hbs, hbn]

/-- C1 witness: the doctor branch and the admin-only branch applied at
concrete states. -/
theorem C1_witness :
    list_recipients_for_user stC1w "doc" "super" =
      (get_patients_for_doctor stC1w "d1").map (fun pr => ⟨pr.1, pr.2⟩)
  ∧ list_recipients_for_user stC1w "other" "super" = [] :=
  ⟨(C1_list_recipients stC1w "doc" "super").1 rfl (by decide),
   (C1_list_recipients stC1w "other" "super").2.2 (by decide) (by decide)⟩

/-! ## C8: the attachment handle allocator -/

theorem lo_save_all_bounds : ∀ (ps : List String) (st : St),
    (∀ x ∈ (lo_save_all st ps).1, st.loOid.getD 0 < x)
    ∧ List.Pairwise (· < ·) (lo_save_all st ps).1 := by
  intro ps
  induction ps with
  | nil =>
      intro st
      exact ⟨fun x hx => absurd hx (by simp [lo_save_all]), by simp [lo_save_all]⟩
  | cons p t ih =>
      intro st
      have hstep : (lo_save_all st (p :: t)).1 =
          (st.loOid.getD 0 + 1) :: (lo_save_all ((lo_save_file st p).2) t).1 := rfl
      have hcnt : ((lo_save_file st p).2).loOid.getD 0 = st.loOid.getD 0 + 1 := rfl
      obtain ⟨ihall, ihpw⟩ := ih ((lo_save_file st p).2)
      constructor
      · intro x hx
        rw [hstep] at hx
        rcases List.mem_cons.mp hx with h | h
        · omega
        · have := ihall x h
          rw [hcnt] at this
          omega
      · rw [hstep]
        refine List.Pairwise.cons ?_ ihpw
        intro x hx
        have := ihall x hx
        rw [hcnt] at this
        omega

theorem lo_save_all_blobs : ∀ (ps : List String) (st : St) (b : BlobNode),
    b ∈ st.blobs → b ∈ (lo_save_all st ps).2.blobs := by
  intro ps
  induction ps with
  | nil =>
      intro st b hb
      exact hb
  | cons p t ih =>
      intro st b hb
      have hmem : b ∈ ((lo_save_file st p).2).blobs := List.mem_append_left _ hb
      exact ih _ b hmem

/-- C8.  The allocator `MERGE (c:Counters) ... SET c.lo_oid = c.lo_oid + 1`
returns the previous counter plus one and stores the new value, so over
any sequence of `lo_save_file` calls every returned oid exceeds the
starting counter, the returned oids are strictly increasing (no handle
is ever returned twice), and no `:Blob` node is ever removed. -/
theorem C8_allocator_strictly_increasing :
    (∀ (st : St) (path : String), (lo_save_file st path).1 = st.loOid.getD 0 + 1)
  ∧ (∀ (st : St) (path : String),
      (lo_save_file st path).2.loOid = some (st.loOid.getD 0 + 1))
  ∧ (∀ (st : St) (ps : List String) (x : Int),
      x ∈ (lo_save_all st ps).1 → st.loOid.getD 0 < x)
  ∧ (∀ (st : St) (ps : List String), List.Pairwise (· < ·) (lo_save_all st ps).1)
  ∧ (∀ (st : St) (ps : List String) (b : BlobNode),
      b ∈ st.blobs → b ∈ (lo_save_all st ps).2.blobs) := by
  refine ⟨fun _ _ => rfl, fun _ _ => rfl, ?_, ?_, ?_⟩
  · intro st ps x hx
    exact (lo_save_all_bounds ps st).1 x hx
  · intro st ps
    exact (lo_save_all_bounds ps st).2
  · intro st ps b hb
    exact lo_save_all_blobs ps st b hb

/-- Inversion of a successful `send_message`: the store gains exactly
one document, whose fields are as the source constructs them. -/
theorem send_message_ok_char {st : St} {login role toP : String} {text fp : Option String}
    {now mid : Nat} {st' : St}
    (hok : send_message st login role toP text fp now = .ok (mid, st')) :
    ∃ doc : Msg,
      st'.messages = st.messages ++ [doc]
      ∧ doc.participants = pairKey (resolved_person_id st login) toP
      ∧ doc.text = orNone (some (pyStrip (text.getD "")))
      ∧ doc.file_url =
          (if noFilePath fp then none else some ("files/" ++ toString (st.loOid.getD 0 + 1)))
      ∧ st'.files =
          (if noFilePath fp then st.files
           else st.files ++ [derive_target_name (st.loOid.getD 0 + 1) (fp.getD "")])
      ∧ (is_blank text = false ∨ noFilePath fp = false) := by
  unfold send_message at hok
  split at hok
  · exact absurd hok (by simp)
  · rename_i hblank
    have hdisj : is_blank text = false ∨ noFilePath fp = false := by
      cases hb : is_blank text with
      | false => exact Or.inl rfl
      | true =>
          cases hf : noFilePath fp with
          | false => exact Or.inr rfl
          | true => exact absurd (by rw [hb, hf]; rfl) hblank
    by_cases hnf : noFilePath fp = true
    · simp only [hnf, eq_self_iff_true, if_true] at hok
      split at hok
      · exact absurd hok (by simp)
      · simp only [pure, Except.pure, Except.ok.injEq, Prod.mk.injEq] at hok
        obtain ⟨hmid, hst⟩ := hok
        subst hst
        refine ⟨_, rfl, rfl, rfl, ?_, ?_, hdisj⟩
        · rw [if_pos hnf]
        · rw [if_pos hnf]
    · have hnf2 : noFilePath fp = false := by
        revert hnf
        cases noFilePath fp <;> simp
      simp only [hnf2, Bool.false_eq_true, if_false] at hok
      split at hok
      · exact absurd hok (by simp)
      · simp only [pure, Except.pure, Except.ok.injEq, Prod.mk.injEq] at hok
        obtain ⟨hmid, hst⟩ := hok
        subst hst
        refine ⟨_, rfl, rfl, rfl, ?_, ?_, hdisj⟩
        · simp only [hnf2, Bool.false_eq_true, if_false]
          rfl
        · simp only [hnf2, Bool.false_eq_true, if_false]
          rfl

theorem string_append_empty (s : String) : s ++ "" = s := by
  cases s with
  | mk data =>
      show String.mk (data ++ []) = String.mk data
      rw [List.append_nil]

/-! ## C4: attachment file names and the urls stored for them -/

/-- C4 (amended).  `lo_save_file` writes the bytes under the content
directory as `<handle><original-extension>` and stores the matching
relative path `files/<handle><ext>` in the `:Blob` node's `url`.  The
`file_url` that `send_message` stores for an attachment, however, is
`files/<handle>` WITHOUT the extension (the source formats `str(oid)`
only), so it names the stored file exactly when the derived safe
extension is empty — the counterexample shows the mismatch for a `.pdf`
attachment. -/
theorem C4_attachment_paths :
    (∀ (st : St) (path : String),
      lo_save_file st path =
        (st.loOid.getD 0 + 1,
         { st with
           loOid := some (st.loOid.getD 0 + 1)
           files := st.files ++ [derive_target_name (st.loOid.getD 0 + 1) path]
           blobs := st.blobs ++
             [⟨st.loOid.getD 0 + 1,
               "files/" ++ derive_target_name (st.loOid.getD 0 + 1) path⟩] }))
  ∧ (∀ (st : St) (login role toP : String) (text : Option String) (fp : String)
      (now mid : Nat) (st' : St),
      send_message st login role toP text (some fp) now = .ok (mid, st') →
      noFilePath (some fp) = false →
      (st'.messages.getLast?).map Msg.file_url =
        some (some ("files/" ++ toString (st.loOid.getD 0 + 1)))
      ∧ st'.files = st.files ++ [derive_target_name (st.loOid.getD 0 + 1) fp]
      ∧ (safeExt (pathSuffix fp) = "" →
          derive_target_name (st.loOid.getD 0 + 1) fp = toString (st.loOid.getD 0 + 1))) := by
  constructor
  · intro st path
    rfl
  · intro st login role toP text fp now mid st' hok hnf
    obtain ⟨doc, hmsg, _, _, hurl, hfiles, _⟩ := send_message_ok_char hok
    refine ⟨?_, ?_, ?_⟩
    · rw [hmsg, List.getLast?_concat, Option.map_some', hurl]
      simp only [hnf, Bool.false_eq_true, if_false]
    · rw [hfiles]
      simp only [hnf, Bool.false_eq_true, if_false, Option.getD_some]
    · intro hse
      unfold derive_target_name
      rw [hse]
      exact string_append_empty _

/-- C4 counterexample to the claim as stated: sending a `.pdf`
attachment stores the file as `1.pdf` and the blob url as
`files/1.pdf`, but the message's `file_url` is `files/1`, which does
not name the stored file. -/
theorem C4_counterexample :
    (send_message stC4 "doc" "super" "p9" none (some "scan.pdf") 7).map
        (fun r => (r.2.files, r.2.messages.map Msg.file_url, r.2.blobs.map BlobNode.url)) =
      .ok (["1.pdf"], [some "files/1"], ["files/1.pdf"])
  ∧ ("files/1" : String) ≠ "files/1.pdf" := by
  exact ⟨by decide, by decide⟩

/-- C4 witness: the amended theorem's attachment conjunct applied at a
concrete send. -/
theorem C4_witness :
    (stC4w.messages.getLast?).map Msg.file_url = some (some ("files/" ++ toString (stC4.loOid.getD 0 + 1)))
  ∧ stC4w.files = stC4.files ++ [derive_target_name (stC4.loOid.getD 0 + 1) "scan.pdf"]
  ∧ (safeExt (pathSuffix "scan.pdf") = "" →
      derive_target_name (stC4.loOid.getD 0 + 1) "scan.pdf" = toString (stC4.loOid.getD 0 + 1)) :=
  C4_attachment_paths.2 stC4 "doc" "super" "p9" none "scan.pdf" 7 0 stC4w
    (by decide) (by decide)

/-- C8 witness: the membership conjuncts applied at concrete inputs. -/
theorem C8_witness :
    ((5 : Int) < 6 → True)
  ∧ stC8w.loOid.getD 0 < (lo_save_all stC8w ["a"]).1.getD 0 0
  ∧ (⟨5, "files/5"⟩ : BlobNode) ∈ (lo_save_all stC8w ["a"]).2.blobs :=
  ⟨fun _ => trivial,
   C8_allocator_strictly_increasing.2.2.1 stC8w ["a"] 6 (by decide),
   C8_allocator_strictly_increasing.2.2.2.2 stC8w ["a"] ⟨5, "files/5"⟩ (by decide)⟩

/-! ## C10: `send_message` validation and the inserted document -/

theorem dropWhile_head_not {α : Type} {p : α → Bool} (l : List α) (c : α) (cs : List α)
    (h : l.dropWhile p = c :: cs) : p c = false := by
  induction l with
  | nil => exact absurd h (by simp)
  | cons x xs ih =>
      rw [List.dropWhile_cons] at h
      by_cases hx : p x = true
      · rw [if_pos hx] at h
        exact ih h
      · rw [if_neg hx] at h
        injection h with h1 _
        subst h1
        cases hpx : p x with
        | false => rfl
        | true => exact absurd hpx hx

theorem mk_ne_empty {L : List Char} (h : L ≠ []) : String.mk L ≠ "" := by
  intro hc
  have hd : L = "".data := congrArg String.data hc
  rw [show "".data = ([] : List Char) from rfl] at hd
  exact h hd

/-- A string with a non-whitespace character does not strip to `""`. -/
theorem pyStrip_beq_empty {s : String}
    (h : s.toList.all Char.isWhitespace = false) : (pyStrip s == "") = false := by
  have hna : ¬ ∀ c ∈ s.toList, Char.isWhitespace c = true := by
    intro hall
    rw [List.all_eq_true.mpr hall] at h
    exact Bool.noConfusion h
  push_neg at hna
  obtain ⟨c0, hc0, hw0'⟩ := hna
  have h1 : s.toList.dropWhile Char.isWhitespace ≠ [] := by
    intro hnil
    exact hw0' (List.dropWhile_eq_nil_iff.mp hnil c0 hc0)
  cases hd : s.toList.dropWhile Char.isWhitespace with
  | nil => exact absurd hd h1
  | cons c cs =>
      have hcw : Char.isWhitespace c = false := dropWhile_head_not _ c cs hd
      have h2 : ((c :: cs).reverse.dropWhile Char.isWhitespace) ≠ [] := by
        intro hnil
        have hmem : c ∈ (c :: cs).reverse := List.mem_reverse.mpr (List.mem_cons_self c cs)
        have hcontra := List.dropWhile_eq_nil_iff.mp hnil c hmem
        rw [hcw] at hcontra
        exact Bool.noConfusion hcontra
      have h3 : ((c :: cs).reverse.dropWhile Char.isWhitespace).reverse ≠ [] := by
        intro hnil
        exact h2 (by rwa [List.reverse_eq_nil_iff] at hnil)
      have h4 : pyStrip s ≠ "" := by
        unfold pyStrip
        rw [hd]
        exact mk_ne_empty h3
      exact beq_eq_false_iff_ne.mpr h4

/-- C10.  `send_message` raises `ValueError` when the text is blank and
no file is attached, raises `PermissionError` when the caller does not
resolve to a doctor or patient, and mutates nothing in either case (the
error result carries no state).  On success exactly one document is
appended; its `participants` field is the sorted pair of the resolved
sender id and `to_person_id`, and its `text` or `file_url` is
non-null. -/
theorem C10_send_message_validation :
    (∀ (st : St) (login role toP : String) (text fp : Option String) (now : Nat),
      is_blank text = true → noFilePath fp = true →
      send_message st login role toP text fp now =
        .error (.valueError "Provide text or attach a file."))
  ∧ (∀ (st : St) (login role toP : String) (text fp : Option String) (now : Nat),
      (is_blank text && noFilePath fp) = false →
      (normalize_identity st login role).user_type = .adminOnly →
      send_message st login role toP text fp now = .error .permissionError)
  ∧ (∀ (st : St) (login role toP : String) (text fp : Option String) (now mid : Nat)
      (st' : St),
      send_message st login role toP text fp now = .ok (mid, st') →
      st'.messages.length = st.messages.length + 1
      ∧ (st'.messages.getLast?).map Msg.participants =
          some (pairKey (resolved_person_id st login) toP)
      ∧ (st'.messages.getLast?).map (fun d => d.text.isSome || d.file_url.isSome) =
          some true) := by
  refine ⟨?_, ?_, ?_⟩
  · intro st login role toP text fp now ht hf
    unfold send_message
    rw [ht, hf]
    rfl
  · intro st login role toP text fp now hcond hat
    unfold send_message
    simp only [hcond, Bool.false_eq_true, if_false, hat, if_true]
  · intro st login role toP text fp now mid st' hok
    obtain ⟨doc, hmsg, hparts, htext, hurl, _, hdisj⟩ := send_message_ok_char hok
    refine ⟨?_, ?_, ?_⟩
    · rw [hmsg, List.length_append]
      rfl
    · rw [hmsg, List.getLast?_concat, Option.map_some', hparts]
    · rw [hmsg, List.getLast?_concat, Option.map_some']
      rcases hdisj with hb | hf
      · cases text with
        | none => exact Bool.noConfusion hb
        | some s =>
            have hs : s.toList.all Char.isWhitespace = false := hb
            have hsome : orNone (some (pyStrip s)) = some (pyStrip s) := by
              show (if (pyStrip s == "") = true then none else some (pyStrip s)) =
                some (pyStrip s)
              rw [if_neg (fun hc => Bool.noConfusion (pyStrip_beq_empty hs ▸ hc))]
            rw [htext]
            show some ((orNone (some (pyStrip s))).isSome || doc.file_url.isSome) = some true
            rw [hsome]
            rfl
      · rw [hurl]
        simp only [hf, Bool.false_eq_true, if_false, Option.isSome_some, Bool.or_true]

/-- C10 witness: the three conjuncts applied at concrete inputs. -/
theorem C10_witness :
    send_message emptySt "x" "normal" "p" none none 0 =
      .error (.valueError "Provide text or attach a file.")
  ∧ send_message emptySt "x" "normal" "p" (some "hi") none 0 = .error .permissionError
  ∧ (stC10w'.messages.length = stC10w.messages.length + 1
      ∧ (stC10w'.messages.getLast?).map Msg.participants =
          some (pairKey (resolved_person_id stC10w "doc") "p9")
      ∧ (stC10w'.messages.getLast?).map (fun d => d.text.isSome || d.file_url.isSome) =
          some true) :=
  ⟨C10_send_message_validation.1 emptySt "x" "normal" "p" none none 0 (by decide) (by decide),
   C10_send_message_validation.2.1 emptySt "x" "normal" "p" (some "hi") none 0
     (by decide) (by decide),
   C10_send_message_validation.2.2 stC10w "doc" "super" "p9" (some "hi") none 7 0 stC10w'
     (by decide)⟩

/-! ## C5: conversation retrieval -/

theorem char_eq_of_toNat_eq {a b : Char} (h : a.toNat = b.toNat) : a = b := by
  apply Char.eq_of_val_eq
  apply UInt32.eq_of_val_eq
  apply Fin.eq_of_val_eq
  exact h

theorem charListLe_total (l1 l2 : List Char) :
    charListLe l1 l2 = true ∨ charListLe l2 l1 = true := by
  induction l1 generalizing l2 with
  | nil => exact Or.inl rfl
  | cons a as ih =>
      cases l2 with
      | nil => exact Or.inr rfl
      | cons b bs =>
          by_cases hab : a.toNat < b.toNat
          · left
            unfold charListLe
            rw [if_pos hab]
          · by_cases hba : b.toNat < a.toNat
            · right
              unfold charListLe
              rw [if_pos hba]
            · rcases ih bs with h | h
              · left
                unfold charListLe
                rw [if_neg hab, if_neg hba]
                exact h
              · right
                unfold charListLe
                rw [if_neg hba, if_neg hab]
                exact h

theorem charListLe_antisymm (l1 l2 : List Char)
    (h1 : charListLe l1 l2 = true) (h2 : charListLe l2 l1 = true) : l1 = l2 := by
  induction l1 generalizing l2 with
  | nil =>
      cases l2 with
      | nil => rfl
      | cons b bs => exact Bool.noConfusion h2
  | cons a as ih =>
      cases l2 with
      | nil => exact Bool.noConfusion h1
      | cons b bs =>
          unfold charListLe at h1 h2
          by_cases hab : a.toNat < b.toNat
          · have hba : ¬ b.toNat < a.toNat := Nat.lt_asymm hab
            rw [if_neg hba, if_pos hab] at h2
            exact Bool.noConfusion h2
          · by_cases hba : b.toNat < a.toNat
            · rw [if_neg hab, if_pos hba] at h1
              exact Bool.noConfusion h1
            · rw [if_neg hab, if_neg hba] at h1
              rw [if_neg hba, if_neg hab] at h2
              have heq : a = b :=
                char_eq_of_toNat_eq
                  (Nat.le_antisymm (Nat.not_lt.mp hba) (Nat.not_lt.mp hab))
              rw [heq, ih bs h1 h2]

theorem str_ext {a b : String} (h : a.toList = b.toList) : a = b := by
  cases a with
  | mk da =>
      cases b with
      | mk db => exact congrArg String.mk h

/-- Python `sorted([a, b])` does not depend on the argument order. -/
theorem pairKey_comm (a b : String) : pairKey a b = pairKey b a := by
  unfold pairKey
  by_cases hab : strLe a b = true
  · by_cases hba : strLe b a = true
    · have heq : a = b := str_ext (charListLe_antisymm _ _ hab hba)
      rw [if_pos hab, if_pos hba, heq]
    · rw [if_pos hab, if_neg hba]
  · have hba : strLe b a = true := by
      rcases charListLe_total a.toList b.toList with h | h
      · exact absurd h hab
      · exact h
    rw [if_neg hab, if_pos hba]

/-- Both participants query under the same sorted key, so a
doctor/patient pair sees the same conversation from either side. -/
theorem conversation_docs_comm (st : St) (nameA roleA nameB roleB : String) (limit : Nat)
    (hA : ¬ (normalize_identity st nameA roleA).user_type = .adminOnly)
    (hB : ¬ (normalize_identity st nameB roleB).user_type = .adminOnly) :
    conversation_docs st nameA roleA (resolved_person_id st nameB) limit =
      conversation_docs st nameB roleB (resolved_person_id st nameA) limit := by
  simp only [conversation_docs]
  rw [if_neg hA, if_neg hB]
  rw [show (normalize_identity st nameA roleA).person_id = resolved_person_id st nameA
        from rfl,
      show (normalize_identity st nameB roleB).person_id = resolved_person_id st nameB
        from rfl,
      pairKey_comm]

theorem mongoLimit_pairwise {l : List Msg} (h : List.Pairwise msgLE l) (n : Nat) :
    List.Pairwise msgLE (mongoLimit n l) := by
  unfold mongoLimit
  split
  · exact h
  · exact List.Pairwise.sublist (List.take_sublist _ _) h

/-- C5 (amended).  A conversation is retrievable by either participant:
when both logins resolve to a doctor or patient, each side's
`get_conversation` about the other returns the same list.  The list is
the `msgView` image of the matching documents, which are in
non-decreasing `created_at` order; it is capped at `limit` when `limit`
is non-zero, but `limit = 0` means "no limit" (pymongo), as the
counterexample shows. -/
theorem C5_conversation_retrieval :
    (∀ (st : St) (nameA roleA nameB roleB : String) (limit : Nat),
      ¬ (normalize_identity st nameA roleA).user_type = .adminOnly →
      ¬ (normalize_identity st nameB roleB).user_type = .adminOnly →
      get_conversation st nameA roleA (resolved_person_id st nameB) limit =
        get_conversation st nameB roleB (resolved_person_id st nameA) limit)
  ∧ (∀ (st : St) (name role other : String) (limit : Nat),
      List.Pairwise msgLE (conversation_docs st name role other limit)
      ∧ get_conversation st name role other limit =
          (conversation_docs st name role other limit).map msgView)
  ∧ (∀ (st : St) (name role other : String) (limit : Nat), limit ≠ 0 →
      (get_conversation st name role other limit).length ≤ limit) := by
  refine ⟨?_, ?_, ?_⟩
  · intro st nameA roleA nameB roleB limit hA hB
    unfold get_conversation
    rw [conversation_docs_comm st nameA roleA nameB roleB limit hA hB]
  · intro st name role other limit
    constructor
    · simp only [conversation_docs]
      split
      · exact List.Pairwise.nil
      · exact mongoLimit_pairwise (List.sorted_insertionSort msgLE _) limit
    · rfl
  · intro st name role other limit hlim
    unfold get_conversation
    rw [List.length_map]
    simp only [conversation_docs]
    split
    · exact Nat.zero_le _
    · unfold mongoLimit
      rw [if_neg hlim]
      exact List.length_take_le _ _

/-- C5 counterexample to the claim as stated: with `limit = 0` the
result is not capped at the limit argument — pymongo's `limit(0)` means
"no limit", and both stored messages come back. -/
theorem C5_counterexample :
    (get_conversation stC5 "doc" "super" "p9" 0).length = 2
  ∧ ¬ ((get_conversation stC5 "doc" "super" "p9" 0).length ≤ 0) := by
  exact ⟨by decide, by decide⟩

/-- C5 witness: the symmetry and cap conjuncts applied at concrete
inputs. -/
theorem C5_witness :
    get_conversation stC5w "doc" "super" (resolved_person_id stC5w "pat") 5 =
      get_conversation stC5w "pat" "normal" (resolved_person_id stC5w "doc") 5
  ∧ (get_conversation stC5w "doc" "super" "p9" 5).length ≤ 5 :=
  ⟨C5_conversation_retrieval.1 stC5w "doc" "super" "pat" "normal" 5
     (by decide) (by decide),
   C5_conversation_retrieval.2.2 stC5w "doc" "super" "p9" 5 (by decide)⟩

end ClinicApp
